import Mathlib

/-!
# gtlm-nfc: payload codec, write path, adapter setup and record inspection

A shallow embedding of `src/gtlm-nfc.c`.

* Bytes are natural numbers below 256; a C string is the list of the bytes
  that precede its terminating NUL, and a NULL string is `none`.
* The GLib routines the source calls (`g_base64_encode`, `g_base64_decode`,
  `g_variant_new`, `g_variant_new_from_data`, `g_variant_get`, ...) are not
  part of the repository. They are embedded from GLib 2.74 (`gbase64.c`,
  `gvariant.c`, `gvariant-serialiser.c`), specialised to the one type the
  source serialises, `(msms)`.
* Everything the functions do that the claims speak of (signals emitted on the
  `GTlmNfc` object, reads of cached properties, D-Bus proxy creations and
  method calls, the reply to an agent call) is recorded in a list of `Event`s,
  in order. The remote side is an arbitrary function from the events so far
  and the request to a reply, so a statement that holds for every `Remote`
  holds for every behaviour of the daemon.
-/

namespace GtlmNfc

/-! ## Base64 (GLib `gbase64.c`) -/

/-- The table `base64_alphabet`: the character code of the sextet `i`. -/
def base64_alphabet (i : Nat) : Nat :=
  if i < 26 then 65 + i
  else if i < 52 then 97 + (i - 26)
  else if i < 62 then 48 + (i - 52)
  else if i = 62 then 43
  else 47

/-- The table `mime_base64_rank`: the sextet of a character code, `0xff` for a
character outside the alphabet; the padding character `=` has rank 0. -/
def mime_base64_rank (c : Nat) : Nat :=
  if 65 ≤ c ∧ c ≤ 90 then c - 65
  else if 97 ≤ c ∧ c ≤ 122 then c - 97 + 26
  else if 48 ≤ c ∧ c ≤ 57 then c - 48 + 52
  else if c = 43 then 62
  else if c = 47 then 63
  else if c = 61 then 0
  else 0xff

/-- GLib `g_base64_encode (data, len)` without line breaks: three bytes become four
characters, and a final group of one or two bytes is padded with `=`. -/
def g_base64_encode : List Nat → List Nat
  | a :: b :: c :: rest =>
      base64_alphabet (a / 4) :: base64_alphabet (a % 4 * 16 + b / 16) ::
        base64_alphabet (b % 16 * 4 + c / 64) :: base64_alphabet (c % 64) ::
        g_base64_encode rest
  | [a, b] =>
      [base64_alphabet (a / 4), base64_alphabet (a % 4 * 16 + b / 16),
        base64_alphabet (b % 16 * 4), 61]
  | [a] => [base64_alphabet (a / 4), base64_alphabet (a % 4 * 16), 61, 61]
  | [] => []

/-- The loop of `g_base64_decode_step`: `i` counts the characters of the
current group, `v` is the 32-bit register `save`, `last0` and `last1` are
`last[0]` and `last[1]`.  Characters of rank `0xff` are skipped; every fourth
accepted character writes one byte, a second one unless the previous character
was `=`, and a third one unless this character is `=`. -/
def g_base64_decode_step : List Nat → Nat → Nat → Nat → Nat → List Nat
  | [], _, _, _, _ => []
  | c :: rest, i, v, last0, last1 =>
      if mime_base64_rank c ≠ 0xff then
        if i + 1 = 4 then
          ((v * 64 + mime_base64_rank c) % 2 ^ 32 / 65536 % 256 ::
            ((if last0 ≠ 61 then [(v * 64 + mime_base64_rank c) % 2 ^ 32 / 256 % 256] else []) ++
              (if c ≠ 61 then [(v * 64 + mime_base64_rank c) % 2 ^ 32 % 256] else []))) ++
            g_base64_decode_step rest 0 ((v * 64 + mime_base64_rank c) % 2 ^ 32) c last0
        else
          g_base64_decode_step rest (i + 1) ((v * 64 + mime_base64_rank c) % 2 ^ 32) c last0
      else g_base64_decode_step rest i v last0 last1

/-- C `strlen`: the number of bytes before the first NUL. -/
def strlen (s : List Nat) : Nat := (s.takeWhile (fun b => b ≠ 0)).length

/-- GLib `g_base64_decode (text, &out_len)`: one `g_base64_decode_step` over the
`strlen (text)` characters of `text`, from the state 0 and the register 0. -/
def g_base64_decode (text : List Nat) : List Nat :=
  g_base64_decode_step (text.take (strlen text)) 0 0 0 0

/-! ## UTF-8 validation and the GVariant serialisation of `(msms)` -/

/-- A UTF-8 continuation byte. -/
def utf8_cont (b : Nat) : Bool := decide (0x80 ≤ b ∧ b ≤ 0xBF)

/-- GLib `g_utf8_validate (str, len, NULL)` on the `len` bytes `str`: a sequence of
well-formed UTF-8 characters (no overlong form, no surrogate, nothing above
U+10FFFF) none of which is NUL. -/
def g_utf8_validate : List Nat → Bool
  | [] => true
  | a :: rest =>
      if 0 < a ∧ a < 0x80 then g_utf8_validate rest
      else
        match rest with
        | [] => false
        | b :: rest2 =>
            if 0xC2 ≤ a ∧ a ≤ 0xDF ∧ utf8_cont b = true then g_utf8_validate rest2
            else
              match rest2 with
              | [] => false
              | c :: rest3 =>
                  if 0xE0 ≤ a ∧ a ≤ 0xEF ∧ utf8_cont b = true ∧ utf8_cont c = true ∧
                      (a = 0xE0 → 0xA0 ≤ b) ∧ (a = 0xED → b ≤ 0x9F) then
                    g_utf8_validate rest3
                  else
                    match rest3 with
                    | [] => false
                    | d :: rest4 =>
                        if 0xF0 ≤ a ∧ a ≤ 0xF4 ∧ utf8_cont b = true ∧ utf8_cont c = true ∧
                            utf8_cont d = true ∧ (a = 0xF0 → 0x90 ≤ b) ∧
                            (a = 0xF4 → b ≤ 0x8F) then
                          g_utf8_validate rest4
                        else false

def G_MAXUINT8 : Nat := 0xff
def G_MAXUINT16 : Nat := 0xffff
def G_MAXUINT32 : Nat := 0xffffffff
/-- The largest `gsize` (64-bit). -/
def G_MAXSIZE : Nat := 2 ^ 64 - 1

/-- GLib `gvs_get_offset_size (size)`: the width of a framing offset in a
container of `size` bytes. -/
def gvs_get_offset_size (size : Nat) : Nat :=
  if size > G_MAXUINT32 then 8
  else if size > G_MAXUINT16 then 4
  else if size > G_MAXUINT8 then 2
  else if size > 0 then 1
  else 0

/-- GLib `gvs_calculate_total_size (body_size, offsets)`. -/
def gvs_calculate_total_size (body_size offsets : Nat) : Nat :=
  if body_size + 1 * offsets ≤ G_MAXUINT8 then body_size + 1 * offsets
  else if body_size + 2 * offsets ≤ G_MAXUINT16 then body_size + 2 * offsets
  else if body_size + 4 * offsets ≤ G_MAXUINT32 then body_size + 4 * offsets
  else body_size + 8 * offsets

/-- GLib `gvs_write_unaligned_le (bytes, value, size)`: the `size` low bytes of
`value`, least significant first. -/
def gvs_write_unaligned_le : Nat → Nat → List Nat
  | _, 0 => []
  | value, size + 1 => value % 256 :: gvs_write_unaligned_le (value / 256) size

/-- GLib `gvs_read_unaligned_le (bytes, size)`: the little-endian number held by the
first `size` bytes. -/
def gvs_read_unaligned_le : List Nat → Nat → Nat
  | _, 0 => 0
  | [], _ + 1 => 0
  | b :: bytes, size + 1 => b + 256 * gvs_read_unaligned_le bytes size

/-- GLib `g_variant_new_string (string)`: requires valid UTF-8 (otherwise the call
logs a critical warning and returns NULL); the serialised form is the string
with its terminating NUL. -/
def g_variant_new_string (string : List Nat) : Option (List Nat) :=
  if g_utf8_validate string = true then some (string ++ [0]) else none

/-- The bytes of the literal `"[Invalid UTF-8]"`. -/
def invalid_utf8_text : List Nat :=
  [91, 73, 110, 118, 97, 108, 105, 100, 32, 85, 84, 70, 45, 56, 93]

/-- The `s` case of `g_variant_valist_new_nnp`: `g_variant_new_string (ptr)`,
and the string `"[Invalid UTF-8]"` in its place when that returns NULL. -/
def g_variant_valist_new_nnp (ptr : List Nat) : List Nat :=
  match g_variant_new_string ptr with
  | some value => value
  | none => invalid_utf8_text ++ [0]

/-- GLib `gvs_variable_sized_maybe_serialise`: Nothing is empty, Just is the child
followed by one zero byte. -/
def gvs_variable_sized_maybe_serialise : Option (List Nat) → List Nat
  | none => []
  | some child => child ++ [0]

/-- GLib `gvs_tuple_needed_size` and `gvs_tuple_serialise` for a tuple of two
variable-sized members of alignment 1: the two children, zero padding up to the
offset table, and the table, which holds the end of the first child. -/
def gvs_tuple_serialise (child0 child1 : List Nat) : List Nat :=
  let offset := child0.length + child1.length
  let size := gvs_calculate_total_size offset 1
  let offset_size := gvs_get_offset_size size
  child0 ++ child1 ++ List.replicate (size - offset_size - offset) 0 ++
    gvs_write_unaligned_le child0.length offset_size

/-- The `ms` argument of `g_variant_new`: a NULL pointer gives Nothing, a
string gives Just that string. -/
def g_variant_new_ms : Option (List Nat) → List Nat
  | none => gvs_variable_sized_maybe_serialise none
  | some ptr => gvs_variable_sized_maybe_serialise (some (g_variant_valist_new_nnp ptr))

/-- GLib `g_variant_new ("(msms)", username, password)` followed by
`g_variant_get_data` and `g_variant_get_size`: the serialised tuple. -/
def g_variant_new_msms (username password : Option (List Nat)) : List Nat :=
  gvs_tuple_serialise (g_variant_new_ms username) (g_variant_new_ms password)

/-- The ending of a tuple member (`GVariantMemberInfo.ending_type`). -/
inductive GVariantMemberEnding
  | G_VARIANT_MEMBER_ENDING_LAST
  | G_VARIANT_MEMBER_ENDING_OFFSET
  deriving DecidableEq, Repr

/-- The member table of the type `(msms)`: `i1` is `member_info->i + 1`, the
number of framing offsets that precede the member's own. -/
def g_variant_type_info_member_info (index_ : Nat) : Nat × GVariantMemberEnding :=
  if index_ = 0 then (0, GVariantMemberEnding.G_VARIANT_MEMBER_ENDING_OFFSET)
  else (1, GVariantMemberEnding.G_VARIANT_MEMBER_ENDING_LAST)

/-- GLib `gvs_tuple_get_member_bounds`: where member `index_` starts and ends,
read from the offset table at the end of `value`. -/
def gvs_tuple_get_member_bounds (value : List Nat) (index_ offset_size : Nat) : Nat × Nat :=
  let i1 := (g_variant_type_info_member_info index_).1
  let start :=
    if i1 ≠ 0 then
      gvs_read_unaligned_le (value.drop (value.length - offset_size * i1)) offset_size
    else 0
  let end_ :=
    match (g_variant_type_info_member_info index_).2 with
    | GVariantMemberEnding.G_VARIANT_MEMBER_ENDING_LAST => value.length - offset_size * i1
    | GVariantMemberEnding.G_VARIANT_MEMBER_ENDING_OFFSET =>
        gvs_read_unaligned_le (value.drop (value.length - offset_size * (i1 + 1))) offset_size
  (start, end_)

/-- GLib `gvs_tuple_get_child (value, index_)` on untrusted data: the bytes of the
member, or the empty child when the offset table does not fit or the bounds
are not inside the body of the tuple. -/
def gvs_tuple_get_child (value : List Nat) (index_ : Nat) : List Nat :=
  let offset_size := gvs_get_offset_size value.length
  let i1 := (g_variant_type_info_member_info index_).1
  let needed :=
    match (g_variant_type_info_member_info index_).2 with
    | GVariantMemberEnding.G_VARIANT_MEMBER_ENDING_OFFSET => offset_size * (i1 + 1)
    | GVariantMemberEnding.G_VARIANT_MEMBER_ENDING_LAST => offset_size * i1
  if needed > value.length then []
  else
    let bounds := gvs_tuple_get_member_bounds value index_ offset_size
    let last_end := (gvs_tuple_get_member_bounds value 1 offset_size).2
    if bounds.1 < bounds.2 ∧ bounds.2 ≤ value.length ∧ bounds.2 ≤ last_end then
      (value.drop bounds.1).take (bounds.2 - bounds.1)
    else []

/-- GLib `g_variant_serialiser_is_string (data, size)`: not empty, ends with NUL,
and UTF-8 validation of the whole buffer stops exactly at that NUL. -/
def g_variant_serialiser_is_string (data : List Nat) : Bool :=
  decide (data.length ≠ 0) && decide (data.getLast? = some 0) && g_utf8_validate data.dropLast

/-- GLib `g_variant_get_string` on an untrusted string value: the string, or the
empty string when the data is not a serialised string. -/
def g_variant_get_string (data : List Nat) : List Nat :=
  if g_variant_serialiser_is_string data = true then data.dropLast else []

/-- GLib `g_variant_get_maybe` on a maybe of a variable-sized type followed by the
`s` conversion of `g_variant_get`: NULL for Nothing (no bytes), otherwise the
string held by the child, which is the value without its last byte. -/
def g_variant_get_ms (value : List Nat) : Option (List Nat) :=
  if value.length > 0 then some (g_variant_get_string (value.take (value.length - 1)))
  else none

/-- GLib `g_variant_new_from_data (type, data, size, FALSE, NULL, NULL)` for the
definite type `(msms)`: a value over the bytes as they are (they are only
interpreted when a child is read). It returns NULL only when its precondition
`data != NULL || size == 0` fails. -/
def g_variant_new_from_data (data : Option (List Nat)) (size : Nat) : Option (List Nat) :=
  match data with
  | none => if size = 0 then some [] else none
  | some bytes => some (bytes.take size)

/-- GLib `g_variant_get (v, "(msms)", &username, &password)`. -/
def g_variant_get_msms (v : List Nat) : Option (List Nat) × Option (List Nat) :=
  (g_variant_get_ms (gvs_tuple_get_child v 0), g_variant_get_ms (gvs_tuple_get_child v 1))

/-! ## Signals, remote calls and the functions of `gtlm-nfc.c` -/

/-- The signals of `GTlmNfc` (`SIG_TAG_FOUND`, `SIG_TAG_LOST`,
`SIG_RECORD_FOUND`, `SIG_NO_RECORD_FOUND`) with their arguments; a NULL string
argument is `none`. -/
inductive Signal
  | tag_found (nfc_tag_path : String)
  | tag_lost (nfc_tag_path : String)
  | record_found (username password : Option (List Nat))
  | no_record_found
  deriving DecidableEq, Repr

/-- A `GVariant` value as the source inspects it: a string, a boolean, an
object path, a byte array (type `ay`), or a value of any other type. -/
inductive GVariant
  | string (s : String)
  | boolean (b : Bool)
  | object_path (s : String)
  | bytestring (bytes : List Nat)
  | other
  deriving DecidableEq, Repr

/-- The parameters of the remote method calls the source makes. -/
inductive Parameters
  | ss (interface_name property_name : String)
  | ssv (interface_name property_name : String) (value : GVariant)
  | s (role : String)
  | record (entries : List (String × GVariant))
  deriving DecidableEq, Repr

/-- A request to the remote side: `g_dbus_proxy_new_for_bus_sync` on the
system bus, or a synchronous method call (`g_dbus_connection_call_sync`,
`g_dbus_proxy_call_sync`). -/
inductive Request
  | proxy_new (name object_path interface_name : String)
  | call (bus_name object_path interface_name method_name : String) (parameters : Parameters)
  deriving DecidableEq, Repr

/-- What the program does, in order: a signal emitted on the `GTlmNfc` object,
a read of a cached property of the proxy at hand
(`g_dbus_proxy_get_cached_property`), a request to the remote side, or the
reply to an agent method call (`g_dbus_method_invocation_return_value`). -/
inductive Event
  | signal (s : Signal)
  | cached_property (property_name : String)
  | remote (r : Request)
  | return_value
  deriving DecidableEq, Repr

/-- A `GError`: the string of its domain quark, its code and its message. -/
structure GError where
  domain : String
  code : Nat
  message : String
  deriving DecidableEq, Repr

/-- The answer to a request: a value, NULL with a `GError`, or NULL without
one. The last is what a GDBus call returns when one of its argument checks
(`g_return_val_if_fail`) fails: `g_dbus_proxy_new_for_bus_sync` checks
`g_variant_is_object_path (object_path)` and `error == NULL || *error == NULL`
before it does anything else, and leaves `error` untouched when a check fails. -/
inductive Reply
  | value (v : GVariant)
  | error (e : GError)
  | null
  deriving DecidableEq, Repr

/-- The remote side: the answer to a request, given everything that happened
before it. -/
def Remote : Type := List Event → Request → Reply

/-- A `GDBusProxy`: bus name, object path, interface name and the cached
properties. -/
structure GDBusProxy where
  name : String
  object_path : String
  interface_name : String
  cached_properties : List (String × GVariant)
  deriving DecidableEq, Repr

/-- The string of `gtlm_nfc_error_quark`, the macro `GTLM_NFC_ERROR`. -/
def GTLM_NFC_ERROR : String := "gtlm-nfc"

def GTLM_NFC_ERROR_NONE : Nat := 0
def GTLM_NFC_ERROR_NO_TAG : Nat := 1

/-- How a call of `gtlm_nfc_write_username_password` ends: it returns, the
location `error` (when not NULL) holding `error`, or it dereferences NULL, which
is `error` in `*error` and `*error` in `(*error)->message`; in both cases after
the events listed. -/
inductive WriteOutcome
  | returned (events : List Event) (error : Option (Option GError))
  | null_dereference (events : List Event)
  deriving DecidableEq, Repr

/-- The events of a write outcome. -/
def WriteOutcome.events : WriteOutcome → List Event
  | WriteOutcome.returned events _ => events
  | WriteOutcome.null_dereference events => events

/-- GLib `g_propagate_error` and `g_set_error` as the GDBus calls use them on the
location `error`: nothing is stored through NULL, and a location that already
holds an error keeps it. -/
def g_propagate_error (error : Option (Option GError)) (e : GError) : Option (Option GError) :=
  match error with
  | none => none
  | some none => some (some e)
  | some (some old) => some (some old)

/-- GLib `g_variant_is_of_type (value, G_VARIANT_TYPE_STRING)`. -/
def g_variant_is_of_type_string : GVariant → Bool
  | GVariant.string _ => true
  | _ => false

/-- GLib `g_variant_is_of_type (value, G_VARIANT_TYPE_BOOLEAN)`. -/
def g_variant_is_of_type_boolean : GVariant → Bool
  | GVariant.boolean _ => true
  | _ => false

/-- GLib `g_variant_get_boolean (value)`; FALSE when the value is not a boolean. -/
def g_variant_get_boolean : GVariant → Bool
  | GVariant.boolean b => b
  | _ => false

/-- The loop of `g_variant_serialiser_is_object_path` from the second character
on: letters, digits and `_` are accepted, and `/` unless the character before
it is `/`; `previous` is the character before `string`. -/
def object_path_elements : Char → List Char → Bool
  | _, [] => true
  | previous, c :: string =>
      if c.isAlphanum || c = '_' then object_path_elements c string
      else if c = '/' then
        if previous = '/' then false else object_path_elements c string
      else false

/-- GLib `g_variant_is_object_path (string)`: the path begins with `/`, its
elements are not empty and made of letters, digits and `_`, and it does not end
with `/` unless it is the root path. -/
def g_variant_is_object_path (string : String) : Bool :=
  match string.toList with
  | [] => false
  | c :: rest =>
      decide (c = '/') && object_path_elements c rest &&
        (rest.isEmpty || decide (rest.getLast? ≠ some '/'))

/-- GLib `g_variant_get_string (value, NULL)` on a property value: the string of a
string or object path, and NULL (after a failed precondition check) for a
value of another type. An object path that is not valid reads as the root
path `/`. -/
def g_variant_get_string_value : GVariant → Option String
  | GVariant.string s => some s
  | GVariant.object_path s => some (if g_variant_is_object_path s = true then s else "/")
  | _ => none

/-- GLib `g_strcmp0 (str1, str2) != 0` where `str1` may be NULL and `str2` is a
literal. -/
def g_strcmp0_ne (str1 : Option String) (str2 : String) : Bool :=
  match str1 with
  | none => true
  | some s => decide (s ≠ str2)

/-- GLib `g_dbus_proxy_get_cached_property (proxy, property_name)`. -/
def g_dbus_proxy_get_cached_property (proxy : GDBusProxy) (property_name : String) :
    Option GVariant :=
  proxy.cached_properties.lookup property_name

/-- GLib `g_variant_new_bytestring (string)`: the array of the bytes of the C string
and its terminating NUL. -/
def g_variant_new_bytestring (string : List Nat) : GVariant :=
  GVariant.bytestring (string.take (strlen string) ++ [0])

/-- GLib `g_variant_get_bytestring` followed by the copy of `g_variant_dup_bytestring`:
the C string held by a byte array that ends with NUL, the empty string for any
other array. -/
def g_variant_dup_bytestring (bytes : List Nat) : List Nat :=
  if bytes.getLast? = some 0 then bytes.take (strlen bytes) else []

/-- GLib `g_variant_lookup (dictionary, key, "^ay", &value)`: the entry must exist
and be a byte array. -/
def g_variant_lookup_bytestring (dictionary : List (String × GVariant)) (key : String) :
    Option (List Nat) :=
  match dictionary.lookup key with
  | some (GVariant.bytestring bytes) => some (g_variant_dup_bytestring bytes)
  | _ => none

/-- The static function `_encode_username_password`: the base64 text of the
serialised `(msms)` tuple. -/
def _encode_username_password (username password : Option (List Nat)) : List Nat :=
  g_base64_encode (g_variant_new_msms username password)

/-- The function `gtlm_nfc_write_username_password`; `error` is `none` for a
NULL location and `some e` for a location that holds `e`. After a NULL answer
the source reads `(*error)->message` for its debug line: that needs a location
that holds an error. -/
def gtlm_nfc_write_username_password (remote : Remote) (history : List Event)
    (nfc_tag_path : Option String) (username password : Option (List Nat))
    (error : Option (Option GError)) : WriteOutcome :=
  match nfc_tag_path with
  | none =>
      match error with
      | none => WriteOutcome.null_dereference []
      | some _ =>
          WriteOutcome.returned []
            (some (some ⟨GTLM_NFC_ERROR, GTLM_NFC_ERROR_NO_TAG, "No tag is present"⟩))
  | some path =>
      let tag := Request.proxy_new "org.neard" path "org.neard.Tag"
      match remote history tag with
      | Reply.error e =>
          match error with
          | none => WriteOutcome.null_dereference [Event.remote tag]
          | some _ => WriteOutcome.returned [Event.remote tag] (g_propagate_error error e)
      | Reply.null =>
          match error with
          | some (some _) => WriteOutcome.returned [Event.remote tag] error
          | _ => WriteOutcome.null_dereference [Event.remote tag]
      | Reply.value _ =>
          let binary_data := _encode_username_password username password
          let payload := g_variant_new_bytestring binary_data
          let write := Request.call "org.neard" path "org.neard.Tag" "Write"
            (Parameters.record [("Type", GVariant.string "MIME"),
              ("MIME", GVariant.string "application/gtlm-nfc"), ("Payload", payload)])
          match remote (history ++ [Event.remote tag]) write with
          | Reply.error e =>
              match error with
              | none => WriteOutcome.null_dereference [Event.remote tag, Event.remote write]
              | some _ =>
                  WriteOutcome.returned [Event.remote tag, Event.remote write]
                    (g_propagate_error error e)
          | Reply.null =>
              match error with
              | some (some _) =>
                  WriteOutcome.returned [Event.remote tag, Event.remote write] error
              | _ => WriteOutcome.null_dereference [Event.remote tag, Event.remote write]
          | Reply.value _ =>
              WriteOutcome.returned [Event.remote tag, Event.remote write] error

/-- The static function `_decode_username_password`: the signals it emits. -/
def _decode_username_password (data : List Nat) : List Event :=
  let variant_s := g_base64_decode data
  match g_variant_new_from_data (some variant_s) variant_s.length with
  | none => [Event.signal Signal.no_record_found]
  | some v =>
      [Event.signal (Signal.record_found (g_variant_get_msms v).1 (g_variant_get_msms v).2)]

/-- The static function `_handle_agent_method_call`; `parameters` lists the
children of the parameter tuple, each a dictionary. -/
def _handle_agent_method_call (method_name : String)
    (parameters : List (List (String × GVariant))) : List Event :=
  if method_name ≠ "GetNDEF" then [Event.return_value]
  else
    match parameters.head? with
    | none => [Event.signal Signal.no_record_found, Event.return_value]
    | some parameters_dict =>
        match g_variant_lookup_bytestring parameters_dict "Payload" with
        | none => [Event.signal Signal.no_record_found, Event.return_value]
        | some payload_data => _decode_username_password payload_data ++ [Event.return_value]

/-- The `Get` call of `org.freedesktop.DBus.Properties` that
`_setup_nfc_adapter` makes for a property of the adapter. -/
def properties_get (nfc_adapter : GDBusProxy) (property_name : String) : Request :=
  Request.call "org.neard" nfc_adapter.object_path "org.freedesktop.DBus.Properties" "Get"
    (Parameters.ss nfc_adapter.interface_name property_name)

/-- The `Set` call that switches the adapter on. -/
def properties_set_powered (nfc_adapter : GDBusProxy) : Request :=
  Request.call "org.neard" nfc_adapter.object_path "org.freedesktop.DBus.Properties" "Set"
    (Parameters.ssv nfc_adapter.interface_name "Powered" (GVariant.boolean true))

/-- The `StartPollLoop` call on the adapter proxy. -/
def start_poll_loop (nfc_adapter : GDBusProxy) : Request :=
  Request.call nfc_adapter.name nfc_adapter.object_path nfc_adapter.interface_name
    "StartPollLoop" (Parameters.s "Initiator")

/-- The end of `_setup_nfc_adapter`, from `if (polling == FALSE)`; `done` are
the events of this call so far. Whatever the answer to `StartPollLoop`, nothing
follows it. -/
def _setup_nfc_adapter_poll (remote : Remote) (history : List Event) (nfc_adapter : GDBusProxy)
    (polling : Bool) (done : List Event) : List Event :=
  if polling = false then
    match remote (history ++ done) (start_poll_loop nfc_adapter) with
    | Reply.error _ => done ++ [Event.remote (start_poll_loop nfc_adapter)]
    | Reply.null => done ++ [Event.remote (start_poll_loop nfc_adapter)]
    | Reply.value _ => done ++ [Event.remote (start_poll_loop nfc_adapter)]
  else done

/-- The static function `_setup_nfc_adapter`: the events of the call, the
remote side having seen `history` before. A request answered NULL is the last
event of the call, with a `GError` (the source logs it and returns) or without
one (the source reads `error->message` of no error). -/
def _setup_nfc_adapter (remote : Remote) (history : List Event) (nfc_adapter : GDBusProxy) :
    List Event :=
  let get_powered := Event.remote (properties_get nfc_adapter "Powered")
  match remote history (properties_get nfc_adapter "Powered") with
  | Reply.error _ => [get_powered]
  | Reply.null => [get_powered]
  | Reply.value powered_v =>
      if g_variant_is_of_type_boolean powered_v = false then [get_powered]
      else
        let powered := g_variant_get_boolean powered_v
        let get_polling := Event.remote (properties_get nfc_adapter "Polling")
        match remote (history ++ [get_powered]) (properties_get nfc_adapter "Polling") with
        | Reply.error _ => [get_powered, get_polling]
        | Reply.null => [get_powered, get_polling]
        | Reply.value polling_v =>
            if g_variant_is_of_type_boolean polling_v = false then [get_powered, get_polling]
            else
              let polling := g_variant_get_boolean polling_v
              if powered = false then
                let set_powered := Event.remote (properties_set_powered nfc_adapter)
                match remote (history ++ [get_powered, get_polling])
                    (properties_set_powered nfc_adapter) with
                | Reply.error _ => [get_powered, get_polling, set_powered]
                | Reply.null => [get_powered, get_polling, set_powered]
                | Reply.value _ =>
                    _setup_nfc_adapter_poll remote history nfc_adapter polling
                      [get_powered, get_polling, set_powered]
              else
                _setup_nfc_adapter_poll remote history nfc_adapter polling
                  [get_powered, get_polling]

/-- The `org.neard.Record` branch of `_on_interface_added`: the checks of the
cached `Type` and `MIME` properties.  The second type check reads `type_v`, as
the source does. -/
def _on_interface_added_record (proxy : GDBusProxy) : List Event :=
  Event.cached_property "Type" ::
    match g_dbus_proxy_get_cached_property proxy "Type" with
    | none => [Event.signal Signal.no_record_found]
    | some type_v =>
        if g_variant_is_of_type_string type_v = false then [Event.signal Signal.no_record_found]
        else if g_strcmp0_ne (g_variant_get_string_value type_v) "MIME" = true then
          [Event.signal Signal.no_record_found]
        else
          Event.cached_property "MIME" ::
            match g_dbus_proxy_get_cached_property proxy "MIME" with
            | none => [Event.signal Signal.no_record_found]
            | some mimetype_v =>
                if g_variant_is_of_type_string type_v = false then
                  [Event.signal Signal.no_record_found]
                else if g_strcmp0_ne (g_variant_get_string_value mimetype_v)
                    "application/gtlm-nfc" = true then
                  [Event.signal Signal.no_record_found]
                else []

/-- The function `_on_interface_added` for the interface `proxy` of the object
at `object_path`. -/
def _on_interface_added (remote : Remote) (history : List Event) (object_path : String)
    (proxy : GDBusProxy) : List Event :=
  if proxy.interface_name = "org.neard.Adapter" then _setup_nfc_adapter remote history proxy
  else if proxy.interface_name = "org.neard.Tag" then
    [Event.signal (Signal.tag_found object_path)]
  else if proxy.interface_name = "org.neard.Record" then _on_interface_added_record proxy
  else []

/-- GLib `g_variant_is_of_type (value, G_VARIANT_TYPE_OBJECT_PATH)`. -/
def g_variant_is_of_type_object_path : GVariant → Bool
  | GVariant.object_path _ => true
  | _ => false

/-- The function `_on_interface_removed` for the interface `proxy` of the object
at `object_path`. When the adapter proxy is not obtained its creation is the
last event of the call. -/
def _on_interface_removed (remote : Remote) (history : List Event) (object_path : String)
    (proxy : GDBusProxy) : List Event :=
  if proxy.interface_name = "org.neard.Tag" then
    Event.signal (Signal.tag_lost object_path) :: Event.cached_property "Adapter" ::
      match g_dbus_proxy_get_cached_property proxy "Adapter" with
      | none => []
      | some adapter_v =>
          if g_variant_is_of_type_object_path adapter_v = false then []
          else
            match g_variant_get_string_value adapter_v with
            | none => []
            | some adapter_path =>
                let adapter := Request.proxy_new "org.neard" adapter_path "org.neard.Adapter"
                let done := [Event.signal (Signal.tag_lost object_path),
                  Event.cached_property "Adapter", Event.remote adapter]
                match remote (history ++ [Event.signal (Signal.tag_lost object_path),
                    Event.cached_property "Adapter"]) adapter with
                | Reply.error _ => [Event.remote adapter]
                | Reply.null => [Event.remote adapter]
                | Reply.value _ =>
                    Event.remote adapter ::
                      _setup_nfc_adapter remote (history ++ done)
                        ⟨"org.neard", adapter_path, "org.neard.Adapter", []⟩
  else []

/-- The function `_on_object_added`: `_on_interface_added` for each interface
of the object, in the order of the list. -/
def _on_object_added (remote : Remote) (history : List Event) (object_path : String) :
    List GDBusProxy → List Event
  | [] => []
  | interface :: interfaces =>
      _on_interface_added remote history object_path interface ++
        _on_object_added remote
          (history ++ _on_interface_added remote history object_path interface)
          object_path interfaces

/-- The function `_on_object_removed`: `_on_interface_removed` for each
interface of the object, in the order of the list. -/
def _on_object_removed (remote : Remote) (history : List Event) (object_path : String) :
    List GDBusProxy → List Event
  | [] => []
  | interface :: interfaces =>
      _on_interface_removed remote history object_path interface ++
        _on_object_removed remote
          (history ++ _on_interface_removed remote history object_path interface)
          object_path interfaces

/-- The signals of a list of events, in order. -/
def signals (events : List Event) : List Signal :=
  events.filterMap (fun e =>
    match e with
    | Event.signal s => some s
    | _ => none)

/-- The number of `record-found` and `no-record-found` signals in a list of
events. -/
def record_signals (events : List Event) : Nat :=
  (events.filter (fun e =>
    match e with
    | Event.signal (Signal.record_found _ _) => true
    | Event.signal Signal.no_record_found => true
    | _ => false)).length

/-- The requests of a list of events that change the remote side: every method
call other than a property read (`Get`); proxy creations and signals are not
among them. -/
def remote_writes (events : List Event) : List Request :=
  events.filterMap (fun e =>
    match e with
    | Event.remote (Request.call bus_name object_path interface_name method_name parameters) =>
        if method_name = "Get" then none
        else some (Request.call bus_name object_path interface_name method_name parameters)
    | _ => none)

/-- The requests of a list of events, in order. -/
def requests (events : List Event) : List Request :=
  events.filterMap (fun e =>
    match e with
    | Event.remote r => some r
    | _ => none)

/-! ## The inputs of the scenarios -/

/-- The encoding of ("alice", "secret"), `YWxpY2UAAHNlY3JldAAABw==`, without its
last character. -/
def truncated_payload : List Nat :=
  [89, 87, 120, 112, 89, 50, 85, 65, 65, 72, 78, 108, 89, 51, 74, 108, 100, 65, 65, 65, 66, 119,
    61]

/-- The error GDBus reports for a method call on an object that is gone. -/
def unknown_method_error : GError :=
  ⟨"g-dbus-error-quark", 19,
    "GDBus.Error:org.freedesktop.DBus.Error.UnknownMethod: No such method Write"⟩

/-- A remote side on which the tag is gone: the proxy is created, and every
method call fails with `unknown_method_error`. -/
def lost_tag_remote : Remote := fun _ r =>
  match r with
  | Request.proxy_new _ _ _ => Reply.value GVariant.other
  | Request.call _ _ _ _ _ => Reply.error unknown_method_error

/-- A remote side on which every property of an adapter reads FALSE and every
other request succeeds. -/
def idle_adapter_remote : Remote := fun _ r =>
  match r with
  | Request.call _ _ _ method_name _ =>
      if method_name = "Get" then Reply.value (GVariant.boolean false)
      else Reply.value GVariant.other
  | Request.proxy_new _ _ _ => Reply.value GVariant.other

/-- A record of type `MIME` and MIME type `application/gtlm-nfc` whose payload
is the encoding of ("alice", "secret"). -/
def alice_record : GDBusProxy :=
  ⟨"org.neard", "/org/neard/nfc0/tag0/record0", "org.neard.Record",
    [("Type", GVariant.string "MIME"), ("MIME", GVariant.string "application/gtlm-nfc"),
      ("Payload", g_variant_new_bytestring
        (_encode_username_password (some [97, 108, 105, 99, 101])
          (some [115, 101, 99, 114, 101, 116])))]⟩

/-- A record of type `Text`. -/
def text_record : GDBusProxy :=
  ⟨"org.neard", "/org/neard/nfc0/tag0/record0", "org.neard.Record",
    [("Type", GVariant.string "Text")]⟩

/-- A tag whose `Adapter` property names the adapter `/org/neard/nfc0`. -/
def adapter_tag : GDBusProxy :=
  ⟨"org.neard", "/org/neard/nfc0/tag0", "org.neard.Tag",
    [("Adapter", GVariant.object_path "/org/neard/nfc0")]⟩

/-- A tag whose cached properties are gone. -/
def bare_tag : GDBusProxy :=
  ⟨"org.neard", "/org/neard/nfc0/tag0", "org.neard.Tag", []⟩

/-- The adapter `/org/neard/nfc0`. -/
def nfc0_adapter : GDBusProxy :=
  ⟨"org.neard", "/org/neard/nfc0", "org.neard.Adapter", []⟩

/-- The error GDBus reports for a property the object does not have. -/
def invalid_args_error : GError :=
  ⟨"g-dbus-error-quark", 16,
    "GDBus.Error:org.freedesktop.DBus.Error.InvalidArgs: No such property"⟩

/-- A remote side on which `Powered` reads FALSE, the read of `Polling` fails
and every other request succeeds. -/
def polling_unreadable_remote : Remote := fun _ r =>
  match r with
  | Request.call _ _ _ method_name (Parameters.ss _ property_name) =>
      if method_name = "Get" then
        if property_name = "Powered" then Reply.value (GVariant.boolean false)
        else Reply.error invalid_args_error
      else Reply.value GVariant.other
  | _ => Reply.value GVariant.other

/-- A remote side on which `Powered` and `Polling` read FALSE and the `Set` of
`Powered` fails; every other request succeeds. -/
def set_refused_remote : Remote := fun _ r =>
  match r with
  | Request.call _ _ _ method_name _ =>
      if method_name = "Get" then Reply.value (GVariant.boolean false)
      else if method_name = "Set" then Reply.error invalid_args_error
      else Reply.value GVariant.other
  | Request.proxy_new _ _ _ => Reply.value GVariant.other

/-- A record of type `MIME` whose MIME type is `text/plain`. -/
def plain_record : GDBusProxy :=
  ⟨"org.neard", "/org/neard/nfc0/tag0/record0", "org.neard.Record",
    [("Type", GVariant.string "MIME"), ("MIME", GVariant.string "text/plain")]⟩

/-- A remote side seen through the argument checks of GDBus: the creation of a
proxy for a path that `g_variant_is_object_path` rejects returns NULL and no
`GError`; every other request succeeds. -/
def unchecked_path_remote : Remote := fun _ r =>
  match r with
  | Request.proxy_new _ object_path _ =>
      if g_variant_is_object_path object_path = true then Reply.value GVariant.other
      else Reply.null
  | Request.call _ _ _ _ _ => Reply.value GVariant.other

/-! ## Base64: decoding an encoding -/

theorem rank_alphabet_all : ∀ i, i < 64 → mime_base64_rank (base64_alphabet i) = i := by
  decide

theorem rank_alphabet (i : Nat) (h : i < 64) : mime_base64_rank (base64_alphabet i) = i :=
  rank_alphabet_all i h

theorem alphabet_ne_pad (i : Nat) : base64_alphabet i ≠ 61 := by
  unfold base64_alphabet
  split_ifs <;> omega

theorem alphabet_ne_zero (i : Nat) : base64_alphabet i ≠ 0 := by
  unfold base64_alphabet
  split_ifs <;> omega

theorem decode_step_group (c0 c1 c2 c3 : Nat) (rest : List Nat) (v l0 l1 : Nat)
    (h0 : mime_base64_rank c0 ≠ 0xff) (h1 : mime_base64_rank c1 ≠ 0xff)
    (h2 : mime_base64_rank c2 ≠ 0xff) (h3 : mime_base64_rank c3 ≠ 0xff) :
    g_base64_decode_step (c0 :: c1 :: c2 :: c3 :: rest) 0 v l0 l1 =
      ((((v * 64 + mime_base64_rank c0) % 2 ^ 32 * 64 + mime_base64_rank c1) % 2 ^ 32 * 64 +
            mime_base64_rank c2) % 2 ^ 32 * 64 + mime_base64_rank c3) % 2 ^ 32 / 65536 % 256 ::
        ((if c2 ≠ 61 then
            [((((v * 64 + mime_base64_rank c0) % 2 ^ 32 * 64 + mime_base64_rank c1) % 2 ^ 32 * 64 +
              mime_base64_rank c2) % 2 ^ 32 * 64 + mime_base64_rank c3) % 2 ^ 32 / 256 % 256]
          else []) ++
          (if c3 ≠ 61 then
            [((((v * 64 + mime_base64_rank c0) % 2 ^ 32 * 64 + mime_base64_rank c1) % 2 ^ 32 * 64 +
              mime_base64_rank c2) % 2 ^ 32 * 64 + mime_base64_rank c3) % 2 ^ 32 % 256]
          else [])) ++
        g_base64_decode_step rest 0
          (((((v * 64 + mime_base64_rank c0) % 2 ^ 32 * 64 + mime_base64_rank c1) % 2 ^ 32 * 64 +
              mime_base64_rank c2) % 2 ^ 32 * 64 + mime_base64_rank c3) % 2 ^ 32) c3 c2 := by
  simp [g_base64_decode_step, h0, h1, h2, h3]

theorem base64_roundtrip (bs : List Nat) (hb : ∀ b ∈ bs, b < 256) (v l0 l1 : Nat) :
    g_base64_decode_step (g_base64_encode bs) 0 v l0 l1 = bs := by
  induction bs using g_base64_encode.induct generalizing v l0 l1 with
  | case1 a b c rest ih =>
    have ha : a < 256 := hb a (by simp)
    have hb' : b < 256 := hb b (by simp)
    have hc : c < 256 := hb c (by simp)
    have hrest : ∀ x ∈ rest, x < 256 := fun x hx => hb x (by simp [hx])
    rw [g_base64_encode, decode_step_group]
    · rw [ih hrest]
      rw [rank_alphabet _ (by omega), rank_alphabet _ (by omega), rank_alphabet _ (by omega),
        rank_alphabet _ (by omega)]
      simp only [ne_eq, alphabet_ne_pad, not_false_eq_true, if_true]
      simp only [List.cons_append, List.nil_append, List.cons.injEq, and_true]
      refine ⟨?_, ?_, ?_⟩ <;> omega
    all_goals (rw [rank_alphabet _ (by omega)]; omega)
  | case2 a b =>
    have ha : a < 256 := hb a (by simp)
    have hb' : b < 256 := hb b (by simp)
    have hpad : mime_base64_rank 61 = 0 := by decide
    rw [g_base64_encode, decode_step_group]
    · rw [rank_alphabet _ (by omega), rank_alphabet _ (by omega), rank_alphabet _ (by omega), hpad]
      simp only [ne_eq, alphabet_ne_pad, not_false_eq_true, if_true, not_true_eq_false, if_false,
        g_base64_decode_step]
      simp only [List.cons_append, List.nil_append, List.append_nil, List.cons.injEq, and_true]
      refine ⟨?_, ?_⟩ <;> omega
    all_goals first
      | (rw [rank_alphabet _ (by omega)]; omega)
      | (rw [hpad]; omega)
  | case3 a =>
    have ha : a < 256 := hb a (by simp)
    have hpad : mime_base64_rank 61 = 0 := by decide
    rw [g_base64_encode, decode_step_group]
    · rw [rank_alphabet _ (by omega), rank_alphabet _ (by omega), hpad]
      simp only [ne_eq, not_true_eq_false, if_false, g_base64_decode_step]
      simp only [List.nil_append, List.append_nil, List.cons.injEq, and_true]
      omega
    all_goals first
      | (rw [rank_alphabet _ (by omega)]; omega)
      | (rw [hpad]; omega)
  | case4 => rfl

theorem encode_ne_zero (bs : List Nat) : ∀ c ∈ g_base64_encode bs, c ≠ 0 := by
  induction bs using g_base64_encode.induct with
  | case1 a b c rest ih =>
    intro x hx
    simp only [g_base64_encode, List.mem_cons] at hx
    rcases hx with h | h | h | h | h
    · rw [h]; exact alphabet_ne_zero _
    · rw [h]; exact alphabet_ne_zero _
    · rw [h]; exact alphabet_ne_zero _
    · rw [h]; exact alphabet_ne_zero _
    · exact ih x h
  | case2 a b =>
    intro x hx
    simp only [g_base64_encode, List.mem_cons, List.mem_singleton, List.not_mem_nil,
      or_false] at hx
    rcases hx with h | h | h | h <;>
      first
        | (rw [h]; exact alphabet_ne_zero _)
        | (rw [h]; decide)
  | case3 a =>
    intro x hx
    simp only [g_base64_encode, List.mem_cons, List.mem_singleton, List.not_mem_nil,
      or_false] at hx
    rcases hx with h | h | h | h <;>
      first
        | (rw [h]; exact alphabet_ne_zero _)
        | (rw [h]; decide)
  | case4 => intro x hx; simp [g_base64_encode] at hx

theorem take_strlen (s : List Nat) (h : ∀ c ∈ s, c ≠ 0) : s.take (strlen s) = s := by
  have : s.takeWhile (fun b => b ≠ 0) = s := by
    rw [List.takeWhile_eq_self_iff]
    intro x hx
    simpa using h x hx
  unfold strlen
  rw [this]
  exact List.take_length s

theorem g_base64_decode_encode (bs : List Nat) (hb : ∀ b ∈ bs, b < 256) :
    g_base64_decode (g_base64_encode bs) = bs := by
  unfold g_base64_decode
  rw [take_strlen _ (encode_ne_zero bs)]
  exact base64_roundtrip bs hb 0 0 0

theorem write_length (v n : Nat) : (gvs_write_unaligned_le v n).length = n := by
  induction n generalizing v with
  | zero => rfl
  | succ n ih => simp [gvs_write_unaligned_le, ih]

theorem write_lt (v n : Nat) : ∀ b ∈ gvs_write_unaligned_le v n, b < 256 := by
  induction n generalizing v with
  | zero => intro b hb; simp [gvs_write_unaligned_le] at hb
  | succ n ih =>
    intro b hb
    simp only [gvs_write_unaligned_le, List.mem_cons] at hb
    rcases hb with h | h
    · omega
    · exact ih _ b h

theorem read_write (v n : Nat) (rest : List Nat) :
    gvs_read_unaligned_le (gvs_write_unaligned_le v n ++ rest) n = v % 256 ^ n := by
  induction n generalizing v with
  | zero => simp [gvs_read_unaligned_le, Nat.mod_one]
  | succ n ih =>
    rw [gvs_write_unaligned_le, List.cons_append, gvs_read_unaligned_le, ih, pow_succ',
      Nat.mod_mul]

theorem utf8_cont_lt (b : Nat) (h : utf8_cont b = true) : b < 256 := by
  unfold utf8_cont at h
  simp only [decide_eq_true_eq] at h
  omega

theorem utf8_lt (s : List Nat) : g_utf8_validate s = true → ∀ b ∈ s, b < 256 := by
  induction s using g_utf8_validate.induct with
  | case1 => intro _ b hb; simp at hb
  | case2 d rest hd ih =>
    intro h b hb
    rw [g_utf8_validate.eq_def] at h
    simp only [if_pos hd] at h
    rcases List.mem_cons.mp hb with e | e
    · omega
    · exact ih h b e
  | case3 d hd =>
    intro h
    simp [g_utf8_validate, hd] at h
  | case4 d hd d1 rest h2 ih =>
    intro h b hb
    rw [g_utf8_validate.eq_def] at h
    simp only [if_neg hd, if_pos h2] at h
    simp only [List.mem_cons] at hb
    rcases hb with e | e | e
    · omega
    · rw [e]; exact utf8_cont_lt _ h2.2.2
    · exact ih h b e
  | case5 d hd d1 h2 =>
    intro h
    simp [g_utf8_validate, hd, h2] at h
  | case6 d hd d1 h2 d2 rest h3 ih =>
    intro h b hb
    rw [g_utf8_validate.eq_def] at h
    simp only [if_neg hd, if_neg h2, if_pos h3] at h
    simp only [List.mem_cons] at hb
    rcases hb with e | e | e | e
    · omega
    · rw [e]; exact utf8_cont_lt _ h3.2.2.1
    · rw [e]; exact utf8_cont_lt _ h3.2.2.2.1
    · exact ih h b e
  | case7 d hd d1 h2 d2 h3 =>
    intro h
    simp [g_utf8_validate, hd, h2, h3] at h
  | case8 d hd d1 h2 d2 h3 d3 rest h4 ih =>
    intro h b hb
    rw [g_utf8_validate.eq_def] at h
    simp only [if_neg hd, if_neg h2, if_neg h3, if_pos h4] at h
    simp only [List.mem_cons] at hb
    rcases hb with e | e | e | e | e
    · omega
    · rw [e]; exact utf8_cont_lt _ h4.2.2.1
    · rw [e]; exact utf8_cont_lt _ h4.2.2.2.1
    · rw [e]; exact utf8_cont_lt _ h4.2.2.2.2.1
    · exact ih h b e
  | case9 d hd d1 h2 d2 h3 d3 rest h4 =>
    intro h
    rw [g_utf8_validate.eq_def] at h
    simp only [if_neg hd, if_neg h2, if_neg h3, if_neg h4] at h
    exact absurd h (by simp)

theorem total_size_offset (body : Nat) (h : body + 8 ≤ G_MAXSIZE) :
    ∃ k, gvs_get_offset_size (gvs_calculate_total_size body 1) = k ∧
      gvs_calculate_total_size body 1 = body + k ∧ body < 256 ^ k := by
  unfold G_MAXSIZE at h
  by_cases h1 : body + 1 ≤ 255
  · refine ⟨1, ?_, ?_, ?_⟩
    · simp only [gvs_calculate_total_size, gvs_get_offset_size, G_MAXUINT8, G_MAXUINT16,
        G_MAXUINT32]
      split_ifs <;> omega
    · simp only [gvs_calculate_total_size, G_MAXUINT8]
      split_ifs <;> omega
    · omega
  · by_cases h2 : body + 2 ≤ 65535
    · refine ⟨2, ?_, ?_, ?_⟩
      · simp only [gvs_calculate_total_size, gvs_get_offset_size, G_MAXUINT8, G_MAXUINT16,
          G_MAXUINT32]
        split_ifs <;> omega
      · simp only [gvs_calculate_total_size, G_MAXUINT8, G_MAXUINT16]
        split_ifs <;> omega
      · omega
    · by_cases h3 : body + 4 ≤ 4294967295
      · refine ⟨4, ?_, ?_, ?_⟩
        · simp only [gvs_calculate_total_size, gvs_get_offset_size, G_MAXUINT8, G_MAXUINT16,
            G_MAXUINT32]
          split_ifs <;> omega
        · simp only [gvs_calculate_total_size, G_MAXUINT8, G_MAXUINT16, G_MAXUINT32]
          split_ifs <;> omega
        · omega
      · refine ⟨8, ?_, ?_, ?_⟩
        · simp only [gvs_calculate_total_size, gvs_get_offset_size, G_MAXUINT8, G_MAXUINT16,
            G_MAXUINT32]
          split_ifs <;> omega
        · simp only [gvs_calculate_total_size, G_MAXUINT8, G_MAXUINT16, G_MAXUINT32]
          split_ifs <;> omega
        · omega

theorem tuple_serialise_eq (c0 c1 : List Nat) (h : c0.length + c1.length + 8 ≤ G_MAXSIZE) :
    ∃ k, gvs_tuple_serialise c0 c1 = c0 ++ c1 ++ gvs_write_unaligned_le c0.length k ∧
      gvs_get_offset_size (c0.length + c1.length + k) = k ∧ c0.length < 256 ^ k := by
  obtain ⟨k, hk1, hk2, hk3⟩ := total_size_offset (c0.length + c1.length) h
  have hk : gvs_get_offset_size (c0.length + c1.length + k) = k := by
    rw [← hk2]; exact hk1
  refine ⟨k, ?_, hk, ?_⟩
  · simp only [gvs_tuple_serialise, hk2, hk]
    have : c0.length + c1.length + k - k - (c0.length + c1.length) = 0 := by omega
    rw [this]
    simp
  · omega

theorem member_bounds_0 (value : List Nat) (k : Nat) :
    gvs_tuple_get_member_bounds value 0 k =
      (0, gvs_read_unaligned_le (value.drop (value.length - k)) k) := by
  simp [gvs_tuple_get_member_bounds, g_variant_type_info_member_info]

theorem member_bounds_1 (value : List Nat) (k : Nat) :
    gvs_tuple_get_member_bounds value 1 k =
      (gvs_read_unaligned_le (value.drop (value.length - k)) k, value.length - k) := by
  simp [gvs_tuple_get_member_bounds, g_variant_type_info_member_info]

theorem tuple_get_child_eq_0 (value : List Nat) :
    gvs_tuple_get_child value 0 =
      if gvs_get_offset_size value.length > value.length then []
      else if 0 < gvs_read_unaligned_le
            (value.drop (value.length - gvs_get_offset_size value.length))
            (gvs_get_offset_size value.length) ∧
          gvs_read_unaligned_le (value.drop (value.length - gvs_get_offset_size value.length))
            (gvs_get_offset_size value.length) ≤ value.length ∧
          gvs_read_unaligned_le (value.drop (value.length - gvs_get_offset_size value.length))
            (gvs_get_offset_size value.length) ≤
            value.length - gvs_get_offset_size value.length then
        value.take (gvs_read_unaligned_le
          (value.drop (value.length - gvs_get_offset_size value.length))
          (gvs_get_offset_size value.length))
      else [] := by
  simp [gvs_tuple_get_child, member_bounds_0, member_bounds_1, g_variant_type_info_member_info]

theorem tuple_get_child_eq_1 (value : List Nat) :
    gvs_tuple_get_child value 1 =
      if gvs_get_offset_size value.length > value.length then []
      else if gvs_read_unaligned_le
            (value.drop (value.length - gvs_get_offset_size value.length))
            (gvs_get_offset_size value.length) <
            value.length - gvs_get_offset_size value.length then
        (value.drop (gvs_read_unaligned_le
          (value.drop (value.length - gvs_get_offset_size value.length))
          (gvs_get_offset_size value.length))).take
          (value.length - gvs_get_offset_size value.length -
            gvs_read_unaligned_le (value.drop (value.length - gvs_get_offset_size value.length))
              (gvs_get_offset_size value.length))
      else [] := by
  simp [gvs_tuple_get_child, member_bounds_1, g_variant_type_info_member_info]

theorem tuple_get_child_0 (c0 c1 : List Nat) (h : c0.length + c1.length + 8 ≤ G_MAXSIZE) :
    gvs_tuple_get_child (gvs_tuple_serialise c0 c1) 0 = c0 := by
  obtain ⟨k, hv, hk, hlt⟩ := tuple_serialise_eq c0 c1 h
  have hlen : (c0 ++ c1 ++ gvs_write_unaligned_le c0.length k).length =
      c0.length + c1.length + k := by
    simp [write_length, Nat.add_assoc]
  have hdrop : (c0 ++ c1 ++ gvs_write_unaligned_le c0.length k).drop (c0.length + c1.length) =
      gvs_write_unaligned_le c0.length k := by
    rw [List.drop_append_of_le_length (by simp)]
    simp
  have hread : gvs_read_unaligned_le (gvs_write_unaligned_le c0.length k) k = c0.length := by
    have := read_write c0.length k []
    rw [List.append_nil] at this
    rw [this, Nat.mod_eq_of_lt hlt]
  have hsub : c0.length + c1.length + k - k = c0.length + c1.length := by omega
  rw [hv, tuple_get_child_eq_0, hlen, hk, hsub, hdrop, hread]
  rw [if_neg (by omega)]
  by_cases hz : c0.length = 0
  · rw [if_neg (by omega)]
    exact (List.length_eq_zero.mp hz).symm
  · rw [if_pos (by omega), List.append_assoc, List.take_left' rfl]

theorem tuple_get_child_1 (c0 c1 : List Nat) (h : c0.length + c1.length + 8 ≤ G_MAXSIZE) :
    gvs_tuple_get_child (gvs_tuple_serialise c0 c1) 1 = c1 := by
  obtain ⟨k, hv, hk, hlt⟩ := tuple_serialise_eq c0 c1 h
  have hlen : (c0 ++ c1 ++ gvs_write_unaligned_le c0.length k).length =
      c0.length + c1.length + k := by
    simp [write_length, Nat.add_assoc]
  have hdrop : (c0 ++ c1 ++ gvs_write_unaligned_le c0.length k).drop (c0.length + c1.length) =
      gvs_write_unaligned_le c0.length k := by
    rw [List.drop_append_of_le_length (by simp)]
    simp
  have hread : gvs_read_unaligned_le (gvs_write_unaligned_le c0.length k) k = c0.length := by
    have := read_write c0.length k []
    rw [List.append_nil] at this
    rw [this, Nat.mod_eq_of_lt hlt]
  have hsub : c0.length + c1.length + k - k = c0.length + c1.length := by omega
  rw [hv, tuple_get_child_eq_1, hlen, hk, hsub, hdrop, hread]
  rw [if_neg (by omega)]
  by_cases hz : c1.length = 0
  · rw [if_neg (by omega)]
    exact (List.length_eq_zero.mp hz).symm
  · rw [if_pos (by omega), List.append_assoc, List.drop_left' rfl]
    have : c0.length + c1.length - c0.length = c1.length := by omega
    rw [this, List.take_left' rfl]

/-! ## The payload codec -/

theorem maybe_lt (field : Option (List Nat)) : ∀ b ∈ g_variant_new_ms field, b < 256 := by
  intro b hb
  cases field with
  | none => simp [g_variant_new_ms, gvs_variable_sized_maybe_serialise] at hb
  | some s =>
    simp only [g_variant_new_ms, gvs_variable_sized_maybe_serialise, g_variant_valist_new_nnp,
      g_variant_new_string] at hb
    by_cases hv : g_utf8_validate s = true
    · simp only [hv, if_true, List.mem_append, List.mem_singleton] at hb
      rcases hb with (h | h) | h
      · exact utf8_lt s hv b h
      · omega
      · omega
    · have hall : ∀ x ∈ (invalid_utf8_text ++ [0]) ++ [0], x < 256 := by decide
      simp only [hv, Bool.false_eq_true, if_false] at hb
      exact hall b hb

theorem tuple_lt (c0 c1 : List Nat) (h0 : ∀ b ∈ c0, b < 256) (h1 : ∀ b ∈ c1, b < 256) :
    ∀ b ∈ gvs_tuple_serialise c0 c1, b < 256 := by
  intro b hb
  simp only [gvs_tuple_serialise, List.mem_append, List.mem_replicate] at hb
  rcases hb with ((h | h) | h) | h
  · exact h0 b h
  · exact h1 b h
  · omega
  · exact write_lt _ _ b h

theorem tuple_fits (c0 c1 : List Nat) (h : (gvs_tuple_serialise c0 c1).length ≤ G_MAXSIZE) :
    c0.length + c1.length + 8 ≤ G_MAXSIZE := by
  by_contra hc
  have hbig : ¬ c0.length + c1.length + 8 ≤ 2 ^ 64 - 1 := by
    unfold G_MAXSIZE at hc
    exact hc
  have hsize : gvs_calculate_total_size (c0.length + c1.length) 1 =
      c0.length + c1.length + 8 := by
    simp only [gvs_calculate_total_size, G_MAXUINT8, G_MAXUINT16, G_MAXUINT32]
    split_ifs <;> omega
  have hoff : gvs_get_offset_size (c0.length + c1.length + 8) = 8 := by
    simp only [gvs_get_offset_size, G_MAXUINT32]
    split_ifs <;> omega
  have hlen : (gvs_tuple_serialise c0 c1).length = c0.length + c1.length + 8 := by
    simp only [gvs_tuple_serialise, hsize, hoff, List.length_append, List.length_replicate,
      write_length]
    omega
  rw [hlen] at h
  exact hc h

theorem get_ms_new_ms (field : Option (List Nat))
    (hf : ∀ s, field = some s → g_utf8_validate s = true) :
    g_variant_get_ms (g_variant_new_ms field) = field := by
  cases field with
  | none => simp [g_variant_new_ms, gvs_variable_sized_maybe_serialise, g_variant_get_ms]
  | some s =>
    have hv : g_utf8_validate s = true := hf s rfl
    have hchild : g_variant_new_ms (some s) = (s ++ [0]) ++ [0] := by
      simp [g_variant_new_ms, gvs_variable_sized_maybe_serialise, g_variant_valist_new_nnp,
        g_variant_new_string, hv]
    have htake : ((s ++ [0]) ++ [0]).take (((s ++ [0]) ++ [0]).length - 1) = s ++ [0] := by
      have : ((s ++ [0]) ++ [0]).length - 1 = (s ++ [0]).length := by simp
      rw [this, List.take_left' rfl]
    have hstr : g_variant_get_string (s ++ [0]) = s := by
      simp [g_variant_get_string, g_variant_serialiser_is_string, hv]
    rw [hchild]
    unfold g_variant_get_ms
    rw [if_pos (by simp), htake, hstr]

theorem encode_length (bs : List Nat) : (g_base64_encode bs).length % 4 = 0 := by
  induction bs using g_base64_encode.induct with
  | case1 a b c rest ih =>
    simp only [g_base64_encode, List.length_cons]
    omega
  | case2 a b => simp [g_base64_encode]
  | case3 a => simp [g_base64_encode]
  | case4 => simp [g_base64_encode]

theorem strlen_terminated (s : List Nat) (h : ∀ c ∈ s, c ≠ 0) :
    strlen (s ++ [0]) = s.length := by
  unfold strlen
  rw [List.takeWhile_append_of_pos (by intro a ha; simpa using h a ha)]
  simp

theorem dup_new_bytestring (s : List Nat) (h : ∀ c ∈ s, c ≠ 0) :
    g_variant_dup_bytestring (s.take (strlen s) ++ [0]) = s := by
  rw [take_strlen s h]
  unfold g_variant_dup_bytestring
  rw [if_pos (List.getLast?_concat s), strlen_terminated s h, List.take_left' rfl]

theorem bytestring_encode (username password : Option (List Nat)) :
    g_variant_new_bytestring (_encode_username_password username password) =
      GVariant.bytestring (_encode_username_password username password ++ [0]) := by
  unfold g_variant_new_bytestring _encode_username_password
  rw [take_strlen _ (encode_ne_zero _)]

theorem decode_one_signal (data : List Nat) :
    signals (_decode_username_password data) ≠ [] ∧
      record_signals (_decode_username_password data) = 1 := by
  simp [_decode_username_password, g_variant_new_from_data, record_signals, signals]

theorem setup_reads_true (remote : Remote) (history : List Event) (nfc_adapter : GDBusProxy)
    (hpowered : remote history (properties_get nfc_adapter "Powered") =
      Reply.value (GVariant.boolean true))
    (hpolling : remote (history ++ [Event.remote (properties_get nfc_adapter "Powered")])
      (properties_get nfc_adapter "Polling") = Reply.value (GVariant.boolean true)) :
    _setup_nfc_adapter remote history nfc_adapter =
      [Event.remote (properties_get nfc_adapter "Powered"),
        Event.remote (properties_get nfc_adapter "Polling")] := by
  simp [_setup_nfc_adapter, hpowered, hpolling, g_variant_is_of_type_boolean,
    g_variant_get_boolean, _setup_nfc_adapter_poll]

theorem added_record (remote : Remote) (history : List Event) (object_path : String)
    (proxy : GDBusProxy) (hrecord : proxy.interface_name = "org.neard.Record") :
    _on_interface_added remote history object_path proxy = _on_interface_added_record proxy := by
  have hA : ¬ proxy.interface_name = "org.neard.Adapter" := by rw [hrecord]; decide
  have hT : ¬ proxy.interface_name = "org.neard.Tag" := by rw [hrecord]; decide
  unfold _on_interface_added
  rw [if_neg hA, if_neg hT, if_pos hrecord]

/-! ## Adapter setup and the interfaces of an object -/

theorem setup_powered_unread (remote : Remote) (history : List Event) (nfc_adapter : GDBusProxy)
    (h : ∀ b, remote history (properties_get nfc_adapter "Powered") ≠
      Reply.value (GVariant.boolean b)) :
    _setup_nfc_adapter remote history nfc_adapter =
      [Event.remote (properties_get nfc_adapter "Powered")] := by
  unfold _setup_nfc_adapter
  cases hp : remote history (properties_get nfc_adapter "Powered") with
  | error e => rfl
  | null => rfl
  | value v =>
    cases v with
    | boolean b => exact absurd hp (h b)
    | _ => simp [g_variant_is_of_type_boolean]

theorem setup_polling_unread (remote : Remote) (history : List Event) (nfc_adapter : GDBusProxy)
    (powered : Bool)
    (hpowered : remote history (properties_get nfc_adapter "Powered") =
      Reply.value (GVariant.boolean powered))
    (h : ∀ b, remote (history ++ [Event.remote (properties_get nfc_adapter "Powered")])
      (properties_get nfc_adapter "Polling") ≠ Reply.value (GVariant.boolean b)) :
    _setup_nfc_adapter remote history nfc_adapter =
      [Event.remote (properties_get nfc_adapter "Powered"),
        Event.remote (properties_get nfc_adapter "Polling")] := by
  unfold _setup_nfc_adapter
  simp only [hpowered, g_variant_is_of_type_boolean]
  cases hp : remote (history ++ [Event.remote (properties_get nfc_adapter "Powered")])
      (properties_get nfc_adapter "Polling") with
  | error e => simp
  | null => simp
  | value v =>
    cases v with
    | boolean b => exact absurd hp (h b)
    | _ => simp [g_variant_is_of_type_boolean]

theorem setup_set_fails (remote : Remote) (history : List Event) (nfc_adapter : GDBusProxy)
    (polling : Bool) (e : GError)
    (hpowered : remote history (properties_get nfc_adapter "Powered") =
      Reply.value (GVariant.boolean false))
    (hpolling : remote (history ++ [Event.remote (properties_get nfc_adapter "Powered")])
      (properties_get nfc_adapter "Polling") = Reply.value (GVariant.boolean polling))
    (hset : remote (history ++ [Event.remote (properties_get nfc_adapter "Powered"),
        Event.remote (properties_get nfc_adapter "Polling")])
      (properties_set_powered nfc_adapter) = Reply.error e) :
    _setup_nfc_adapter remote history nfc_adapter =
      [Event.remote (properties_get nfc_adapter "Powered"),
        Event.remote (properties_get nfc_adapter "Polling"),
        Event.remote (properties_set_powered nfc_adapter)] := by
  simp [_setup_nfc_adapter, hpowered, hpolling, hset, g_variant_is_of_type_boolean,
    g_variant_get_boolean]

theorem setup_set_null (remote : Remote) (history : List Event) (nfc_adapter : GDBusProxy)
    (polling : Bool)
    (hpowered : remote history (properties_get nfc_adapter "Powered") =
      Reply.value (GVariant.boolean false))
    (hpolling : remote (history ++ [Event.remote (properties_get nfc_adapter "Powered")])
      (properties_get nfc_adapter "Polling") = Reply.value (GVariant.boolean polling))
    (hset : remote (history ++ [Event.remote (properties_get nfc_adapter "Powered"),
        Event.remote (properties_get nfc_adapter "Polling")])
      (properties_set_powered nfc_adapter) = Reply.null) :
    _setup_nfc_adapter remote history nfc_adapter =
      [Event.remote (properties_get nfc_adapter "Powered"),
        Event.remote (properties_get nfc_adapter "Polling"),
        Event.remote (properties_set_powered nfc_adapter)] := by
  simp [_setup_nfc_adapter, hpowered, hpolling, hset, g_variant_is_of_type_boolean,
    g_variant_get_boolean]

theorem setup_set_done (remote : Remote) (history : List Event) (nfc_adapter : GDBusProxy)
    (polling : Bool) (v : GVariant)
    (hpowered : remote history (properties_get nfc_adapter "Powered") =
      Reply.value (GVariant.boolean false))
    (hpolling : remote (history ++ [Event.remote (properties_get nfc_adapter "Powered")])
      (properties_get nfc_adapter "Polling") = Reply.value (GVariant.boolean polling))
    (hset : remote (history ++ [Event.remote (properties_get nfc_adapter "Powered"),
        Event.remote (properties_get nfc_adapter "Polling")])
      (properties_set_powered nfc_adapter) = Reply.value v) :
    _setup_nfc_adapter remote history nfc_adapter =
      if polling = false then
        [Event.remote (properties_get nfc_adapter "Powered"),
          Event.remote (properties_get nfc_adapter "Polling"),
          Event.remote (properties_set_powered nfc_adapter),
          Event.remote (start_poll_loop nfc_adapter)]
      else
        [Event.remote (properties_get nfc_adapter "Powered"),
          Event.remote (properties_get nfc_adapter "Polling"),
          Event.remote (properties_set_powered nfc_adapter)] := by
  simp only [_setup_nfc_adapter, hpowered, hpolling, hset, g_variant_is_of_type_boolean,
    g_variant_get_boolean, _setup_nfc_adapter_poll]
  cases polling
  · cases remote (history ++ [Event.remote (properties_get nfc_adapter "Powered"),
        Event.remote (properties_get nfc_adapter "Polling"),
        Event.remote (properties_set_powered nfc_adapter)]) (start_poll_loop nfc_adapter) <;> simp
  · simp

theorem setup_powered_on (remote : Remote) (history : List Event) (nfc_adapter : GDBusProxy)
    (polling : Bool)
    (hpowered : remote history (properties_get nfc_adapter "Powered") =
      Reply.value (GVariant.boolean true))
    (hpolling : remote (history ++ [Event.remote (properties_get nfc_adapter "Powered")])
      (properties_get nfc_adapter "Polling") = Reply.value (GVariant.boolean polling)) :
    _setup_nfc_adapter remote history nfc_adapter =
      if polling = false then
        [Event.remote (properties_get nfc_adapter "Powered"),
          Event.remote (properties_get nfc_adapter "Polling"),
          Event.remote (start_poll_loop nfc_adapter)]
      else
        [Event.remote (properties_get nfc_adapter "Powered"),
          Event.remote (properties_get nfc_adapter "Polling")] := by
  simp only [_setup_nfc_adapter, hpowered, hpolling, g_variant_is_of_type_boolean,
    g_variant_get_boolean, _setup_nfc_adapter_poll]
  cases polling
  · cases remote (history ++ [Event.remote (properties_get nfc_adapter "Powered"),
        Event.remote (properties_get nfc_adapter "Polling")]) (start_poll_loop nfc_adapter) <;> simp
  · simp

theorem setup_forms (remote : Remote) (history : List Event) (nfc_adapter : GDBusProxy) :
    _setup_nfc_adapter remote history nfc_adapter =
        [Event.remote (properties_get nfc_adapter "Powered")] ∨
      _setup_nfc_adapter remote history nfc_adapter =
        [Event.remote (properties_get nfc_adapter "Powered"),
          Event.remote (properties_get nfc_adapter "Polling")] ∨
      _setup_nfc_adapter remote history nfc_adapter =
        [Event.remote (properties_get nfc_adapter "Powered"),
          Event.remote (properties_get nfc_adapter "Polling"),
          Event.remote (properties_set_powered nfc_adapter)] ∨
      _setup_nfc_adapter remote history nfc_adapter =
        [Event.remote (properties_get nfc_adapter "Powered"),
          Event.remote (properties_get nfc_adapter "Polling"),
          Event.remote (start_poll_loop nfc_adapter)] ∨
      _setup_nfc_adapter remote history nfc_adapter =
        [Event.remote (properties_get nfc_adapter "Powered"),
          Event.remote (properties_get nfc_adapter "Polling"),
          Event.remote (properties_set_powered nfc_adapter),
          Event.remote (start_poll_loop nfc_adapter)] := by
  by_cases h1 : ∀ b, remote history (properties_get nfc_adapter "Powered") ≠
      Reply.value (GVariant.boolean b)
  · exact Or.inl (setup_powered_unread remote history nfc_adapter h1)
  · push_neg at h1
    obtain ⟨powered, hpowered⟩ := h1
    by_cases h2 : ∀ b, remote (history ++ [Event.remote (properties_get nfc_adapter "Powered")])
        (properties_get nfc_adapter "Polling") ≠ Reply.value (GVariant.boolean b)
    · exact Or.inr (Or.inl (setup_polling_unread remote history nfc_adapter powered hpowered h2))
    · push_neg at h2
      obtain ⟨polling, hpolling⟩ := h2
      cases powered
      · cases hset : remote (history ++ [Event.remote (properties_get nfc_adapter "Powered"),
            Event.remote (properties_get nfc_adapter "Polling")])
            (properties_set_powered nfc_adapter) with
        | error e =>
          exact Or.inr (Or.inr (Or.inl
            (setup_set_fails remote history nfc_adapter polling e hpowered hpolling hset)))
        | null =>
          exact Or.inr (Or.inr (Or.inl
            (setup_set_null remote history nfc_adapter polling hpowered hpolling hset)))
        | value v =>
          have h := setup_set_done remote history nfc_adapter polling v hpowered hpolling hset
          cases polling
          · exact Or.inr (Or.inr (Or.inr (Or.inr (by rw [h]; rfl))))
          · exact Or.inr (Or.inr (Or.inl (by rw [h]; rfl)))
      · have h := setup_powered_on remote history nfc_adapter polling hpowered hpolling
        cases polling
        · exact Or.inr (Or.inr (Or.inr (Or.inl (by rw [h]; rfl))))
        · exact Or.inr (Or.inl (by rw [h]; rfl))

theorem setup_signals (remote : Remote) (history : List Event) (nfc_adapter : GDBusProxy) :
    signals (_setup_nfc_adapter remote history nfc_adapter) = [] := by
  rcases setup_forms remote history nfc_adapter with h | h | h | h | h <;> rw [h] <;> rfl

theorem each_interface (f : List Event → GDBusProxy → List Event)
    (g : List Event → List GDBusProxy → List Event)
    (hnil : ∀ history, g history [] = [])
    (hcons : ∀ history interface interfaces,
      g history (interface :: interfaces) =
        f history interface ++ g (history ++ f history interface) interfaces)
    (interfaces : List GDBusProxy) :
    ∀ history, ∃ effects : List (List Event),
      effects.length = interfaces.length ∧ g history interfaces = effects.flatten ∧
      ∀ k interface, interfaces[k]? = some interface →
        effects[k]? = some (f (history ++ (effects.take k).flatten) interface) := by
  induction interfaces with
  | nil =>
    intro history
    exact ⟨[], rfl, by rw [hnil]; rfl, by intro k interface h; simp at h⟩
  | cons first interfaces ih =>
    intro history
    obtain ⟨effects, hlen, hflat, heach⟩ := ih (history ++ f history first)
    refine ⟨f history first :: effects, ?_, ?_, ?_⟩
    · simp [hlen]
    · rw [hcons, hflat, List.flatten_cons]
    · intro k interface hk
      cases k with
      | zero =>
        simp only [List.getElem?_cons_zero, Option.some.injEq] at hk
        simp [hk]
      | succ k =>
        rw [List.getElem?_cons_succ] at hk
        rw [List.getElem?_cons_succ, heach k interface hk, List.take_succ_cons,
          List.flatten_cons, List.append_assoc]

/-! ## The text of an encoding -/

theorem alphabet_printable (i : Nat) :
    (65 ≤ base64_alphabet i ∧ base64_alphabet i ≤ 90) ∨
      (97 ≤ base64_alphabet i ∧ base64_alphabet i ≤ 122) ∨
      (48 ≤ base64_alphabet i ∧ base64_alphabet i ≤ 57) ∨
      base64_alphabet i = 43 ∨ base64_alphabet i = 47 ∨ base64_alphabet i = 61 := by
  unfold base64_alphabet
  split_ifs <;> omega

theorem encode_printable (bs : List Nat) :
    ∀ c ∈ g_base64_encode bs,
      (65 ≤ c ∧ c ≤ 90) ∨ (97 ≤ c ∧ c ≤ 122) ∨ (48 ≤ c ∧ c ≤ 57) ∨ c = 43 ∨ c = 47 ∨
        c = 61 := by
  induction bs using g_base64_encode.induct with
  | case1 a b c rest ih =>
    intro x hx
    simp only [g_base64_encode, List.mem_cons] at hx
    rcases hx with h | h | h | h | h
    · rw [h]; exact alphabet_printable _
    · rw [h]; exact alphabet_printable _
    · rw [h]; exact alphabet_printable _
    · rw [h]; exact alphabet_printable _
    · exact ih x h
  | case2 a b =>
    intro x hx
    simp only [g_base64_encode, List.mem_cons, List.mem_singleton, List.not_mem_nil,
      or_false] at hx
    rcases hx with h | h | h | h <;>
      first
        | (rw [h]; exact alphabet_printable _)
        | (rw [h]; decide)
  | case3 a =>
    intro x hx
    simp only [g_base64_encode, List.mem_cons, List.mem_singleton, List.not_mem_nil,
      or_false] at hx
    rcases hx with h | h | h | h <;>
      first
        | (rw [h]; exact alphabet_printable _)
        | (rw [h]; decide)
  | case4 => intro x hx; simp [g_base64_encode] at hx

theorem encode_pos (bs : List Nat) (h : bs ≠ []) : 0 < (g_base64_encode bs).length := by
  induction bs using g_base64_encode.induct with
  | case1 a b c rest ih => simp [g_base64_encode]
  | case2 a b => simp [g_base64_encode]
  | case3 a => simp [g_base64_encode]
  | case4 => exact absurd rfl h

theorem offset_size_pos (body : Nat) :
    0 < gvs_get_offset_size (gvs_calculate_total_size body 1) := by
  have htotal : 0 < gvs_calculate_total_size body 1 := by
    unfold gvs_calculate_total_size
    split_ifs <;> omega
  unfold gvs_get_offset_size
  split_ifs <;> omega

theorem tuple_serialise_ne_nil (c0 c1 : List Nat) : gvs_tuple_serialise c0 c1 ≠ [] := by
  intro h
  have hlen := congrArg List.length h
  have hpos := offset_size_pos (c0.length + c1.length)
  simp only [gvs_tuple_serialise, List.length_append, List.length_replicate, write_length,
    List.length_nil] at hlen
  omega

/-! ## The claims -/

/-- Claim C1. For every pair of fields, each absent (NULL) or a NUL-free UTF-8
string, whose serialised tuple has a size that a `gsize` holds, decoding the
output of `_encode_username_password` emits exactly one signal: `record-found`
with exactly that pair, an absent field absent and an empty string empty, and
no `no-record-found`. -/
theorem decode_encode_username_password (username password : Option (List Nat))
    (hu : ∀ s, username = some s → g_utf8_validate s = true)
    (hp : ∀ s, password = some s → g_utf8_validate s = true)
    (hsize : (g_variant_new_msms username password).length ≤ G_MAXSIZE) :
    _decode_username_password (_encode_username_password username password) =
      [Event.signal (Signal.record_found username password)] := by
  have hfit : (g_variant_new_ms username).length + (g_variant_new_ms password).length + 8 ≤
      G_MAXSIZE := tuple_fits _ _ hsize
  have hlt : ∀ b ∈ g_variant_new_msms username password, b < 256 :=
    tuple_lt _ _ (maybe_lt username) (maybe_lt password)
  have hbase64 : g_base64_decode (_encode_username_password username password) =
      g_variant_new_msms username password := g_base64_decode_encode _ hlt
  have husername : g_variant_get_ms (gvs_tuple_get_child (g_variant_new_msms username password) 0) =
      username := by
    unfold g_variant_new_msms
    rw [tuple_get_child_0 _ _ hfit, get_ms_new_ms _ hu]
  have hpassword : g_variant_get_ms (gvs_tuple_get_child (g_variant_new_msms username password) 1) =
      password := by
    unfold g_variant_new_msms
    rw [tuple_get_child_1 _ _ hfit, get_ms_new_ms _ hp]
  unfold _decode_username_password
  rw [hbase64]
  simp only [g_variant_new_from_data, List.take_length, g_variant_get_msms, husername,
    hpassword]

/-- Witness of C1: the pair ("alice", "secret"). -/
theorem decode_encode_username_password_witness :
    _decode_username_password
        (_encode_username_password (some [97, 108, 105, 99, 101])
          (some [115, 101, 99, 114, 101, 116])) =
      [Event.signal (Signal.record_found (some [97, 108, 105, 99, 101])
        (some [115, 101, 99, 114, 101, 116]))] :=
  decode_encode_username_password (some [97, 108, 105, 99, 101])
    (some [115, 101, 99, 114, 101, 116])
    (fun s h => by cases h; decide) (fun s h => by cases h; decide) (by decide)

/-- Claim C2, which the code does not meet. `_decode_username_password` never
reports a decode failure: for every payload it emits `record-found`. The
encoding of ("alice", "secret") cut short by one character is the output of
`_encode_username_password` for no pair, and decoding it emits `record-found`
with an absent username and an empty password instead of `no-record-found`. -/
theorem decode_truncated_payload :
    (∀ data, ∃ username password, _decode_username_password data =
      [Event.signal (Signal.record_found username password)]) ∧
    (∀ username password, _encode_username_password username password ≠ truncated_payload) ∧
    _decode_username_password truncated_payload =
      [Event.signal (Signal.record_found none (some []))] := by
  refine ⟨?_, ?_, ?_⟩
  · intro data
    exact ⟨_, _, rfl⟩
  · intro username password h
    have h4 := encode_length (g_variant_new_msms username password)
    unfold _encode_username_password at h
    rw [h] at h4
    simp [truncated_payload] at h4
  · decide

/-- Claim C3. With a NULL `nfc_tag_path` and a non-NULL `error` location,
whatever it holds, `gtlm_nfc_write_username_password` returns with no event at
all (no tag proxy, no remote call) and the location holds the error of domain
`gtlm-nfc` and code `GTLM_NFC_ERROR_NO_TAG`. -/
theorem write_null_tag_path (remote : Remote) (history : List Event)
    (username password : Option (List Nat)) (error : Option GError) :
    gtlm_nfc_write_username_password remote history none username password (some error) =
      WriteOutcome.returned []
        (some (some ⟨GTLM_NFC_ERROR, GTLM_NFC_ERROR_NO_TAG, "No tag is present"⟩)) := rfl

/-- Claim C4. For a non-NULL tag path whose proxy is obtained, the requests of
`gtlm_nfc_write_username_password` are the creation of that proxy and exactly
one method call, `Write` on the tag, whose argument is the record with `Type`
"MIME", `MIME` "application/gtlm-nfc" and as `Payload` the bytes of
`_encode_username_password (username, password)` with their terminating NUL;
when that call succeeds the function returns and `error` is as it was. -/
theorem write_issues_one_write (remote : Remote) (history : List Event) (path : String)
    (username password : Option (List Nat)) (error : Option (Option GError)) (tag : GVariant)
    (hproxy : remote history (Request.proxy_new "org.neard" path "org.neard.Tag") =
      Reply.value tag) :
    (gtlm_nfc_write_username_password remote history (some path) username password
        error).events =
      [Event.remote (Request.proxy_new "org.neard" path "org.neard.Tag"),
        Event.remote (Request.call "org.neard" path "org.neard.Tag" "Write"
          (Parameters.record [("Type", GVariant.string "MIME"),
            ("MIME", GVariant.string "application/gtlm-nfc"),
            ("Payload", GVariant.bytestring
              (_encode_username_password username password ++ [0]))]))] ∧
    ∀ result,
      remote (history ++ [Event.remote (Request.proxy_new "org.neard" path "org.neard.Tag")])
          (Request.call "org.neard" path "org.neard.Tag" "Write"
            (Parameters.record [("Type", GVariant.string "MIME"),
              ("MIME", GVariant.string "application/gtlm-nfc"),
              ("Payload", GVariant.bytestring
                (_encode_username_password username password ++ [0]))])) =
        Reply.value result →
      gtlm_nfc_write_username_password remote history (some path) username password error =
        WriteOutcome.returned
          [Event.remote (Request.proxy_new "org.neard" path "org.neard.Tag"),
            Event.remote (Request.call "org.neard" path "org.neard.Tag" "Write"
              (Parameters.record [("Type", GVariant.string "MIME"),
                ("MIME", GVariant.string "application/gtlm-nfc"),
                ("Payload", GVariant.bytestring
                  (_encode_username_password username password ++ [0]))]))]
          error := by
  constructor
  · simp only [gtlm_nfc_write_username_password, hproxy, bytestring_encode]
    cases remote (history ++ [Event.remote (Request.proxy_new "org.neard" path "org.neard.Tag")])
        (Request.call "org.neard" path "org.neard.Tag" "Write"
          (Parameters.record [("Type", GVariant.string "MIME"),
            ("MIME", GVariant.string "application/gtlm-nfc"),
            ("Payload", GVariant.bytestring
              (_encode_username_password username password ++ [0]))])) with
    | value v => rfl
    | error e => cases error <;> rfl
    | null =>
      cases error with
      | none => rfl
      | some held => cases held <;> rfl
  · intro result hwrite
    simp only [gtlm_nfc_write_username_password, hproxy, bytestring_encode, hwrite]

/-- Witness of C4: writing ("alice", "secret") to a tag whose calls succeed. -/
theorem write_issues_one_write_witness :
    (gtlm_nfc_write_username_password (fun _ _ => Reply.value GVariant.other) []
        (some "/org/neard/nfc0/tag0") (some [97, 108, 105, 99, 101])
        (some [115, 101, 99, 114, 101, 116]) (some none)).events =
      [Event.remote (Request.proxy_new "org.neard" "/org/neard/nfc0/tag0" "org.neard.Tag"),
        Event.remote (Request.call "org.neard" "/org/neard/nfc0/tag0" "org.neard.Tag" "Write"
          (Parameters.record [("Type", GVariant.string "MIME"),
            ("MIME", GVariant.string "application/gtlm-nfc"),
            ("Payload", GVariant.bytestring
              [89, 87, 120, 112, 89, 50, 85, 65, 65, 72, 78, 108, 89, 51, 74, 108, 100, 65, 65,
                65, 66, 119, 61, 61, 0])]))] :=
  (write_issues_one_write (fun _ _ => Reply.value GVariant.other) []
    "/org/neard/nfc0/tag0" (some [97, 108, 105, 99, 101]) (some [115, 101, 99, 114, 101, 116])
    (some none) GVariant.other rfl).1

/-- Claim C5, which the code does not meet. For a non-NULL tag path and an
`error` location that holds no error: when the creation of the tag proxy fails
with a `GError` the function returns after that one request, without a `Write`
call, and the location holds that error; when the `Write` call fails with a
`GError` the function returns after the proxy creation and that one `Write` call,
and the location holds that error. But when the creation of the tag proxy
returns NULL without a `GError` the function dereferences NULL after that one
request and does not return: so it does for the path `tag0`, which is not an
object path, where `g_dbus_proxy_new_for_bus_sync` fails its argument check. -/
theorem write_failure_reported :
    (∀ (remote : Remote) (history : List Event) (path : String)
        (username password : Option (List Nat)) (e : GError),
      remote history (Request.proxy_new "org.neard" path "org.neard.Tag") = Reply.error e →
      gtlm_nfc_write_username_password remote history (some path) username password
          (some none) =
        WriteOutcome.returned
          [Event.remote (Request.proxy_new "org.neard" path "org.neard.Tag")]
          (some (some e))) ∧
    (∀ (remote : Remote) (history : List Event) (path : String)
        (username password : Option (List Nat)) (tag : GVariant) (e : GError),
      remote history (Request.proxy_new "org.neard" path "org.neard.Tag") = Reply.value tag →
      remote (history ++ [Event.remote (Request.proxy_new "org.neard" path "org.neard.Tag")])
          (Request.call "org.neard" path "org.neard.Tag" "Write"
            (Parameters.record [("Type", GVariant.string "MIME"),
              ("MIME", GVariant.string "application/gtlm-nfc"),
              ("Payload", GVariant.bytestring
                (_encode_username_password username password ++ [0]))])) =
        Reply.error e →
      gtlm_nfc_write_username_password remote history (some path) username password
          (some none) =
        WriteOutcome.returned
          [Event.remote (Request.proxy_new "org.neard" path "org.neard.Tag"),
            Event.remote (Request.call "org.neard" path "org.neard.Tag" "Write"
              (Parameters.record [("Type", GVariant.string "MIME"),
                ("MIME", GVariant.string "application/gtlm-nfc"),
                ("Payload", GVariant.bytestring
                  (_encode_username_password username password ++ [0]))]))]
          (some (some e))) ∧
    (∀ (remote : Remote) (history : List Event) (path : String)
        (username password : Option (List Nat)),
      remote history (Request.proxy_new "org.neard" path "org.neard.Tag") = Reply.null →
      gtlm_nfc_write_username_password remote history (some path) username password
          (some none) =
        WriteOutcome.null_dereference
          [Event.remote (Request.proxy_new "org.neard" path "org.neard.Tag")]) ∧
    g_variant_is_object_path "tag0" = false ∧
    unchecked_path_remote [] (Request.proxy_new "org.neard" "tag0" "org.neard.Tag") =
      Reply.null ∧
    gtlm_nfc_write_username_password unchecked_path_remote [] (some "tag0")
        (some [97, 108, 105, 99, 101]) (some [115, 101, 99, 114, 101, 116]) (some none) =
      WriteOutcome.null_dereference
        [Event.remote (Request.proxy_new "org.neard" "tag0" "org.neard.Tag")] := by
  refine ⟨?_, ?_, ?_, by decide, by decide, by decide⟩
  · intro remote history path username password e hproxy
    simp only [gtlm_nfc_write_username_password, hproxy, g_propagate_error]
  · intro remote history path username password tag e hproxy hwrite
    simp only [gtlm_nfc_write_username_password, hproxy, bytestring_encode, hwrite,
      g_propagate_error]
  · intro remote history path username password hproxy
    simp only [gtlm_nfc_write_username_password, hproxy]

/-- Claim C6, which the code does not meet. For a non-NULL tag path every error
the function leaves in an empty `error` location is one the remote side
reported; for a tag that is gone, whose `Write` call fails with the GDBus error
`UnknownMethod`, the location holds that error and not the error of code
`GTLM_NFC_ERROR_NO_TAG`. -/
theorem write_lost_tag_error :
    (∀ (remote : Remote) (history : List Event) (path : String)
        (username password : Option (List Nat)) (events : List Event) (e : GError),
      gtlm_nfc_write_username_password remote history (some path) username password
          (some none) = WriteOutcome.returned events (some (some e)) →
      ∃ h r, remote h r = Reply.error e) ∧
    gtlm_nfc_write_username_password lost_tag_remote [] (some "/org/neard/nfc0/tag0")
        (some [97, 108, 105, 99, 101]) (some [115, 101, 99, 114, 101, 116]) (some none) =
      WriteOutcome.returned
        [Event.remote (Request.proxy_new "org.neard" "/org/neard/nfc0/tag0" "org.neard.Tag"),
          Event.remote (Request.call "org.neard" "/org/neard/nfc0/tag0" "org.neard.Tag" "Write"
            (Parameters.record [("Type", GVariant.string "MIME"),
              ("MIME", GVariant.string "application/gtlm-nfc"),
              ("Payload", GVariant.bytestring
                [89, 87, 120, 112, 89, 50, 85, 65, 65, 72, 78, 108, 89, 51, 74, 108, 100, 65,
                  65, 65, 66, 119, 61, 61, 0])]))]
        (some (some unknown_method_error)) ∧
    unknown_method_error.domain ≠ GTLM_NFC_ERROR := by
  refine ⟨?_, by decide, by decide⟩
  intro remote history path username password events e h
  unfold gtlm_nfc_write_username_password at h
  simp only at h
  cases hproxy : remote history (Request.proxy_new "org.neard" path "org.neard.Tag") with
  | error e1 =>
    rw [hproxy] at h
    simp only [g_propagate_error, WriteOutcome.returned.injEq, Option.some.injEq] at h
    exact ⟨_, _, by rw [hproxy, h.2]⟩
  | null =>
    rw [hproxy] at h
    simp at h
  | value v =>
    rw [hproxy] at h
    simp only at h
    cases hwrite : remote (history ++
        [Event.remote (Request.proxy_new "org.neard" path "org.neard.Tag")])
        (Request.call "org.neard" path "org.neard.Tag" "Write"
          (Parameters.record [("Type", GVariant.string "MIME"),
            ("MIME", GVariant.string "application/gtlm-nfc"),
            ("Payload", g_variant_new_bytestring
              (_encode_username_password username password))])) with
    | error e1 =>
      rw [hwrite] at h
      simp only [g_propagate_error, WriteOutcome.returned.injEq, Option.some.injEq] at h
      exact ⟨_, _, by rw [hwrite, h.2]⟩
    | null =>
      rw [hwrite] at h
      simp at h
    | value w =>
      rw [hwrite] at h
      simp at h

/-- Claim C7. When the live `Powered` and `Polling` properties of the adapter
both read TRUE, `_setup_nfc_adapter` makes exactly the two property reads and no
`Set` and no `StartPollLoop` call; and when they read TRUE again in a second
invocation right after the first, that invocation too makes only the two reads:
no remote write or method call. -/
theorem setup_powered_polling (remote : Remote) (history : List Event) (nfc_adapter : GDBusProxy)
    (hpowered : remote history (properties_get nfc_adapter "Powered") =
      Reply.value (GVariant.boolean true))
    (hpolling : remote (history ++ [Event.remote (properties_get nfc_adapter "Powered")])
      (properties_get nfc_adapter "Polling") = Reply.value (GVariant.boolean true))
    (hpowered2 : remote (history ++ [Event.remote (properties_get nfc_adapter "Powered"),
        Event.remote (properties_get nfc_adapter "Polling")])
      (properties_get nfc_adapter "Powered") = Reply.value (GVariant.boolean true))
    (hpolling2 : remote ((history ++ [Event.remote (properties_get nfc_adapter "Powered"),
        Event.remote (properties_get nfc_adapter "Polling")]) ++
        [Event.remote (properties_get nfc_adapter "Powered")])
      (properties_get nfc_adapter "Polling") = Reply.value (GVariant.boolean true)) :
    _setup_nfc_adapter remote history nfc_adapter =
        [Event.remote (properties_get nfc_adapter "Powered"),
          Event.remote (properties_get nfc_adapter "Polling")] ∧
      remote_writes (_setup_nfc_adapter remote history nfc_adapter) = [] ∧
      _setup_nfc_adapter remote (history ++ _setup_nfc_adapter remote history nfc_adapter)
          nfc_adapter =
        [Event.remote (properties_get nfc_adapter "Powered"),
          Event.remote (properties_get nfc_adapter "Polling")] ∧
      remote_writes (_setup_nfc_adapter remote
        (history ++ _setup_nfc_adapter remote history nfc_adapter) nfc_adapter) = [] := by
  have hw : remote_writes [Event.remote (properties_get nfc_adapter "Powered"),
        Event.remote (properties_get nfc_adapter "Polling")] = [] := by
    simp [remote_writes, properties_get]
  rw [setup_reads_true remote history nfc_adapter hpowered hpolling,
    setup_reads_true remote _ nfc_adapter hpowered2 hpolling2, hw]
  exact ⟨rfl, rfl, rfl, rfl⟩

/-- Witness of C7: an adapter all of whose properties read TRUE. -/
theorem setup_powered_polling_witness :
    _setup_nfc_adapter (fun _ _ => Reply.value (GVariant.boolean true)) []
          ⟨"org.neard", "/org/neard/nfc0", "org.neard.Adapter", []⟩ =
        [Event.remote (Request.call "org.neard" "/org/neard/nfc0"
            "org.freedesktop.DBus.Properties" "Get"
            (Parameters.ss "org.neard.Adapter" "Powered")),
          Event.remote (Request.call "org.neard" "/org/neard/nfc0"
            "org.freedesktop.DBus.Properties" "Get"
            (Parameters.ss "org.neard.Adapter" "Polling"))] ∧
      remote_writes (_setup_nfc_adapter (fun _ _ => Reply.value (GVariant.boolean true))
        ([] ++ _setup_nfc_adapter (fun _ _ => Reply.value (GVariant.boolean true)) []
          ⟨"org.neard", "/org/neard/nfc0", "org.neard.Adapter", []⟩)
        ⟨"org.neard", "/org/neard/nfc0", "org.neard.Adapter", []⟩) = [] :=
  ⟨(setup_powered_polling (fun _ _ => Reply.value (GVariant.boolean true)) []
      ⟨"org.neard", "/org/neard/nfc0", "org.neard.Adapter", []⟩ rfl rfl rfl rfl).1,
    (setup_powered_polling (fun _ _ => Reply.value (GVariant.boolean true)) []
      ⟨"org.neard", "/org/neard/nfc0", "org.neard.Adapter", []⟩ rfl rfl rfl rfl).2.2.2⟩

/-- Claim C8. When `Powered` and `Polling` both read FALSE and the two calls
that follow succeed, `_setup_nfc_adapter` makes, after the two reads, exactly
two remote calls, in this order: the `Set` of `Powered` to TRUE, then
`StartPollLoop` with the role "Initiator". -/
theorem setup_off_idle (remote : Remote) (history : List Event) (nfc_adapter : GDBusProxy)
    (set_reply poll_reply : GVariant)
    (hpowered : remote history (properties_get nfc_adapter "Powered") =
      Reply.value (GVariant.boolean false))
    (hpolling : remote (history ++ [Event.remote (properties_get nfc_adapter "Powered")])
      (properties_get nfc_adapter "Polling") = Reply.value (GVariant.boolean false))
    (hset : remote (history ++ [Event.remote (properties_get nfc_adapter "Powered"),
        Event.remote (properties_get nfc_adapter "Polling")])
      (properties_set_powered nfc_adapter) = Reply.value set_reply)
    (hpoll : remote (history ++ [Event.remote (properties_get nfc_adapter "Powered"),
        Event.remote (properties_get nfc_adapter "Polling"),
        Event.remote (properties_set_powered nfc_adapter)])
      (start_poll_loop nfc_adapter) = Reply.value poll_reply) :
    _setup_nfc_adapter remote history nfc_adapter =
        [Event.remote (properties_get nfc_adapter "Powered"),
          Event.remote (properties_get nfc_adapter "Polling"),
          Event.remote (properties_set_powered nfc_adapter),
          Event.remote (start_poll_loop nfc_adapter)] ∧
      remote_writes (_setup_nfc_adapter remote history nfc_adapter) =
        [Request.call "org.neard" nfc_adapter.object_path "org.freedesktop.DBus.Properties"
            "Set" (Parameters.ssv nfc_adapter.interface_name "Powered" (GVariant.boolean true)),
          Request.call nfc_adapter.name nfc_adapter.object_path nfc_adapter.interface_name
            "StartPollLoop" (Parameters.s "Initiator")] := by
  have h1 : _setup_nfc_adapter remote history nfc_adapter =
      [Event.remote (properties_get nfc_adapter "Powered"),
        Event.remote (properties_get nfc_adapter "Polling"),
        Event.remote (properties_set_powered nfc_adapter),
        Event.remote (start_poll_loop nfc_adapter)] := by
    simp [_setup_nfc_adapter, hpowered, hpolling, hset, hpoll, g_variant_is_of_type_boolean,
      g_variant_get_boolean, _setup_nfc_adapter_poll]
  rw [h1]
  refine ⟨rfl, ?_⟩
  simp [remote_writes, properties_get, properties_set_powered, start_poll_loop]

/-- Witness of C8: an adapter that is off and idle. -/
theorem setup_off_idle_witness :
    remote_writes (_setup_nfc_adapter idle_adapter_remote []
        ⟨"org.neard", "/org/neard/nfc0", "org.neard.Adapter", []⟩) =
      [Request.call "org.neard" "/org/neard/nfc0" "org.freedesktop.DBus.Properties"
          "Set" (Parameters.ssv "org.neard.Adapter" "Powered" (GVariant.boolean true)),
        Request.call "org.neard" "/org/neard/nfc0" "org.neard.Adapter"
          "StartPollLoop" (Parameters.s "Initiator")] :=
  (setup_off_idle idle_adapter_remote []
    ⟨"org.neard", "/org/neard/nfc0", "org.neard.Adapter", []⟩ GVariant.other GVariant.other
    rfl rfl rfl rfl).2
/-- Counterexample to C9: for the announced record of type `MIME` and MIME type
`application/gtlm-nfc` the handler emits no signal at all, so not exactly
one. -/
theorem record_added_no_signal :
    signals (_on_interface_added (fun _ _ => Reply.value GVariant.other) []
        "/org/neard/nfc0/tag0/record0" alice_record) = [] ∧
      record_signals (_on_interface_added (fun _ _ => Reply.value GVariant.other) []
        "/org/neard/nfc0/tag0/record0" alice_record) ≠ 1 := by
  decide

/-- Claim C9, amended. For every newly announced record, `_on_interface_added`
makes no remote call, never emits `record-found` and emits at most one signal:
exactly one `no-record-found` when `Type` is not the string "MIME" (absent
and non-string included), when `MIME` is absent, or when `MIME` is a string
other than "application/gtlm-nfc"; and no signal when `Type` is "MIME" and
`MIME` is "application/gtlm-nfc". The verdict on such a record comes with the
agent call `GetNDEF`, for which `_handle_agent_method_call` emits exactly one
signal out of `record-found` and `no-record-found`. -/
theorem record_added_signals (remote : Remote) (history : List Event) (object_path : String)
    (proxy : GDBusProxy) (hrecord : proxy.interface_name = "org.neard.Record") :
    (signals (_on_interface_added remote history object_path proxy) = [] ∨
      signals (_on_interface_added remote history object_path proxy) =
        [Signal.no_record_found]) ∧
    requests (_on_interface_added remote history object_path proxy) = [] ∧
    (g_dbus_proxy_get_cached_property proxy "Type" ≠ some (GVariant.string "MIME") →
      signals (_on_interface_added remote history object_path proxy) =
        [Signal.no_record_found]) ∧
    (g_dbus_proxy_get_cached_property proxy "MIME" = none →
      signals (_on_interface_added remote history object_path proxy) =
        [Signal.no_record_found]) ∧
    (∀ mimetype,
      g_dbus_proxy_get_cached_property proxy "MIME" = some (GVariant.string mimetype) →
      mimetype ≠ "application/gtlm-nfc" →
      signals (_on_interface_added remote history object_path proxy) =
        [Signal.no_record_found]) ∧
    (g_dbus_proxy_get_cached_property proxy "Type" = some (GVariant.string "MIME") →
      g_dbus_proxy_get_cached_property proxy "MIME" =
        some (GVariant.string "application/gtlm-nfc") →
      signals (_on_interface_added remote history object_path proxy) = []) ∧
    (∀ parameters, record_signals (_handle_agent_method_call "GetNDEF" parameters) = 1) := by
  rw [added_record remote history object_path proxy hrecord]
  refine ⟨?_, ?_, ?_, ?_, ?_, ?_, ?_⟩
  · unfold _on_interface_added_record
    cases g_dbus_proxy_get_cached_property proxy "Type" with
    | none => exact Or.inr rfl
    | some type_v =>
      cases g_dbus_proxy_get_cached_property proxy "MIME" with
      | none => simp only; split_ifs <;> simp [signals]
      | some mimetype_v => simp only; split_ifs <;> simp [signals]
  · unfold _on_interface_added_record
    cases g_dbus_proxy_get_cached_property proxy "Type" with
    | none => rfl
    | some type_v =>
      cases g_dbus_proxy_get_cached_property proxy "MIME" with
      | none => simp only; split_ifs <;> simp [requests]
      | some mimetype_v => simp only; split_ifs <;> simp [requests]
  · intro h
    unfold _on_interface_added_record
    cases hty : g_dbus_proxy_get_cached_property proxy "Type" with
    | none => rfl
    | some type_v =>
      rw [hty] at h
      cases type_v with
      | string s =>
        have hs : s ≠ "MIME" := fun e => h (by rw [e])
        simp [g_variant_is_of_type_string, g_strcmp0_ne, g_variant_get_string_value, hs,
          signals]
      | _ => simp [g_variant_is_of_type_string, signals]
  · intro h
    unfold _on_interface_added_record
    rw [h]
    cases g_dbus_proxy_get_cached_property proxy "Type" with
    | none => rfl
    | some type_v => simp only; split_ifs <;> rfl
  · intro mimetype h hne
    unfold _on_interface_added_record
    rw [h]
    cases g_dbus_proxy_get_cached_property proxy "Type" with
    | none => rfl
    | some type_v =>
      simp only [g_strcmp0_ne, g_variant_get_string_value, hne, ne_eq, not_false_eq_true,
        decide_True, if_true]
      split_ifs <;> rfl
  · intro hty hmime
    unfold _on_interface_added_record
    rw [hty, hmime]
    simp [g_variant_is_of_type_string, g_strcmp0_ne, g_variant_get_string_value, signals]
  · intro parameters
    unfold _handle_agent_method_call
    rw [if_neg (by simp)]
    cases parameters.head? with
    | none => simp [record_signals]
    | some parameters_dict =>
      simp only
      cases g_variant_lookup_bytestring parameters_dict "Payload" with
      | none => simp [record_signals]
      | some payload_data =>
        have := (decode_one_signal payload_data).2
        simp only [record_signals, List.filter_append] at this ⊢
        simp [this]

/-- Witness of C9 as amended: a record of type `Text`. -/
theorem record_added_signals_witness :
    signals (_on_interface_added (fun _ _ => Reply.value GVariant.other) []
        "/org/neard/nfc0/tag0/record0" text_record) = [Signal.no_record_found] :=
  (record_added_signals (fun _ _ => Reply.value GVariant.other) []
    "/org/neard/nfc0/tag0/record0" text_record rfl).2.2.1 (by decide)

/-- Claim C11. For every announced record whose `Type` property is not the
string "MIME" (a string other than "MIME", absent, or not a string),
`_on_interface_added` reads the cached `Type` property, emits exactly one
`no-record-found` and stops: it emits no `record-found`, reads neither `MIME`
nor `Payload`, and makes no request. -/
theorem record_type_mismatch (remote : Remote) (history : List Event) (object_path : String)
    (proxy : GDBusProxy) (hrecord : proxy.interface_name = "org.neard.Record")
    (htype : g_dbus_proxy_get_cached_property proxy "Type" ≠ some (GVariant.string "MIME")) :
    _on_interface_added remote history object_path proxy =
      [Event.cached_property "Type", Event.signal Signal.no_record_found] := by
  rw [added_record remote history object_path proxy hrecord]
  unfold _on_interface_added_record
  cases hty : g_dbus_proxy_get_cached_property proxy "Type" with
  | none => rfl
  | some type_v =>
    rw [hty] at htype
    cases type_v with
    | string s =>
      have hs : s ≠ "MIME" := fun e => htype (by rw [e])
      simp [g_variant_is_of_type_string, g_strcmp0_ne, g_variant_get_string_value, hs]
    | _ => simp [g_variant_is_of_type_string]

/-- Witness of C11: a record of type `Text`. -/
theorem record_type_mismatch_witness :
    _on_interface_added (fun _ _ => Reply.value GVariant.other) []
        "/org/neard/nfc0/tag0/record0" text_record =
      [Event.cached_property "Type", Event.signal Signal.no_record_found] :=
  record_type_mismatch (fun _ _ => Reply.value GVariant.other) []
    "/org/neard/nfc0/tag0/record0" text_record rfl (by decide)

/-- Claim C12. For every interface-removed notification for `org.neard.Tag`,
the first thing `_on_interface_removed` does is emit `tag-lost` with the path of
the removed object; nothing after it is a signal, so `tag-lost` is emitted
exactly once, and every request (the creation of the adapter proxy and the
calls of `_setup_nfc_adapter`) comes after it. -/
theorem tag_lost_first (remote : Remote) (history : List Event) (object_path : String)
    (proxy : GDBusProxy) (htag : proxy.interface_name = "org.neard.Tag") :
    (∃ rest, _on_interface_removed remote history object_path proxy =
        Event.signal (Signal.tag_lost object_path) :: rest ∧ signals rest = []) ∧
      signals (_on_interface_removed remote history object_path proxy) =
        [Signal.tag_lost object_path] ∧
      ∀ before request after,
        _on_interface_removed remote history object_path proxy =
          before ++ Event.remote request :: after →
        Event.signal (Signal.tag_lost object_path) ∈ before := by
  have hrest : ∃ rest, _on_interface_removed remote history object_path proxy =
      Event.signal (Signal.tag_lost object_path) :: rest ∧ signals rest = [] := by
    unfold _on_interface_removed
    rw [if_pos htag]
    refine ⟨_, rfl, ?_⟩
    cases g_dbus_proxy_get_cached_property proxy "Adapter" with
    | none => rfl
    | some adapter_v =>
      cases adapter_v with
      | object_path adapter_path =>
        simp only [g_variant_is_of_type_object_path, g_variant_get_string_value]
        generalize (if g_variant_is_object_path adapter_path = true then adapter_path
          else "/") = path
        cases remote (history ++ [Event.signal (Signal.tag_lost object_path),
            Event.cached_property "Adapter"])
            (Request.proxy_new "org.neard" path "org.neard.Adapter") with
        | error e => rfl
        | null => rfl
        | value v =>
          have hs := setup_signals remote
            (history ++ [Event.signal (Signal.tag_lost object_path),
              Event.cached_property "Adapter",
              Event.remote (Request.proxy_new "org.neard" path "org.neard.Adapter")])
            ⟨"org.neard", path, "org.neard.Adapter", []⟩
          simp only [signals, List.filterMap_cons, Bool.false_eq_true, if_false] at hs ⊢
          exact hs
      | _ => rfl
  obtain ⟨rest, hrest1, hrest2⟩ := hrest
  refine ⟨⟨rest, hrest1, hrest2⟩, ?_, ?_⟩
  · rw [hrest1]
    simp only [signals, List.filterMap_cons] at hrest2 ⊢
    rw [hrest2]
  · intro before request after h
    rw [hrest1] at h
    cases before with
    | nil => simp at h
    | cons b before =>
      simp only [List.cons_append, List.cons.injEq] at h
      rw [← h.1]
      exact List.mem_cons_self _ _

/-- Witness of C12: a tag of the adapter `/org/neard/nfc0`, which is off and
idle. -/
theorem tag_lost_first_witness :
    signals (_on_interface_removed idle_adapter_remote [] "/org/neard/nfc0/tag0" adapter_tag) =
      [Signal.tag_lost "/org/neard/nfc0/tag0"] :=
  (tag_lost_first idle_adapter_remote [] "/org/neard/nfc0/tag0" adapter_tag rfl).2.1

/-- Claim C13. For every object and every list of interfaces, the events of
`_on_object_added` are the concatenation of one list of events per interface,
as many as interfaces, where the list at position `k` is what
`_on_interface_added` does for the interface at position `k`, called after
everything the earlier positions did; and the same holds of
`_on_object_removed` and `_on_interface_removed`. No interface is skipped,
moved or merged. -/
theorem object_handlers_each_interface (remote : Remote) (history : List Event)
    (object_path : String) (interfaces : List GDBusProxy) :
    (∃ effects : List (List Event),
      effects.length = interfaces.length ∧
      _on_object_added remote history object_path interfaces = effects.flatten ∧
      ∀ k interface, interfaces[k]? = some interface →
        effects[k]? = some (_on_interface_added remote
          (history ++ (effects.take k).flatten) object_path interface)) ∧
    (∃ effects : List (List Event),
      effects.length = interfaces.length ∧
      _on_object_removed remote history object_path interfaces = effects.flatten ∧
      ∀ k interface, interfaces[k]? = some interface →
        effects[k]? = some (_on_interface_removed remote
          (history ++ (effects.take k).flatten) object_path interface)) := by
  constructor
  · exact each_interface (fun h i => _on_interface_added remote h object_path i)
      (fun h is => _on_object_added remote h object_path is)
      (fun h => rfl) (fun h i is => rfl) interfaces history
  · exact each_interface (fun h i => _on_interface_removed remote h object_path i)
      (fun h is => _on_object_removed remote h object_path is)
      (fun h => rfl) (fun h i is => rfl) interfaces history

/-- Claim C14. For every interface-added notification for `org.neard.Tag`,
`_on_interface_added` does exactly one thing: it emits `tag-found` with the path
of the announced object. It emits no other signal and makes no request. -/
theorem tag_found_only (remote : Remote) (history : List Event) (object_path : String)
    (proxy : GDBusProxy) (htag : proxy.interface_name = "org.neard.Tag") :
    _on_interface_added remote history object_path proxy =
      [Event.signal (Signal.tag_found object_path)] := by
  have hA : ¬ proxy.interface_name = "org.neard.Adapter" := by rw [htag]; decide
  unfold _on_interface_added
  rw [if_neg hA, if_pos htag]

/-- Witness of C14: the tag `/org/neard/nfc0/tag0`. -/
theorem tag_found_only_witness :
    _on_interface_added idle_adapter_remote [] "/org/neard/nfc0/tag0" adapter_tag =
      [Event.signal (Signal.tag_found "/org/neard/nfc0/tag0")] :=
  tag_found_only idle_adapter_remote [] "/org/neard/nfc0/tag0" adapter_tag rfl

/-- Claim C15, which the code does not meet. With a NULL `nfc_tag_path` and a
NULL `error` the function stores the new error through the NULL location: it
does not return. -/
theorem write_null_error (remote : Remote) (history : List Event)
    (username password : Option (List Nat)) :
    gtlm_nfc_write_username_password remote history none username password none =
      WriteOutcome.null_dereference [] := rfl

/-- Counterexample to C16: `Powered` reads FALSE, the `Set` of `Powered` would
succeed and the read of `Polling` fails; `_setup_nfc_adapter` makes the two
reads and returns without the power-on write. -/
theorem setup_polling_read_before_set :
    polling_unreadable_remote
        [Event.remote (properties_get nfc0_adapter "Powered"),
          Event.remote (properties_get nfc0_adapter "Polling")]
        (properties_set_powered nfc0_adapter) = Reply.value GVariant.other ∧
      _setup_nfc_adapter polling_unreadable_remote [] nfc0_adapter =
        [Event.remote (properties_get nfc0_adapter "Powered"),
          Event.remote (properties_get nfc0_adapter "Polling")] ∧
      Event.remote (properties_set_powered nfc0_adapter) ∉
        _setup_nfc_adapter polling_unreadable_remote [] nfc0_adapter := by
  decide

/-- Claim C16, amended. The requests of `_setup_nfc_adapter` are, in this
order: the read of `Powered`, the read of `Polling`, the power-on `Set`, and
`StartPollLoop`, the call ending after any of them. The `Set` is made only when
`Powered` read FALSE and `StartPollLoop` only when `Polling` read FALSE. When
`Powered` reads a boolean and the read of `Polling` fails or yields no boolean,
the call ends after the two reads: no `Set` is made. -/
theorem setup_order (remote : Remote) (history : List Event) (nfc_adapter : GDBusProxy) :
    (_setup_nfc_adapter remote history nfc_adapter =
        [Event.remote (properties_get nfc_adapter "Powered")] ∨
      _setup_nfc_adapter remote history nfc_adapter =
        [Event.remote (properties_get nfc_adapter "Powered"),
          Event.remote (properties_get nfc_adapter "Polling")] ∨
      _setup_nfc_adapter remote history nfc_adapter =
        [Event.remote (properties_get nfc_adapter "Powered"),
          Event.remote (properties_get nfc_adapter "Polling"),
          Event.remote (properties_set_powered nfc_adapter)] ∨
      _setup_nfc_adapter remote history nfc_adapter =
        [Event.remote (properties_get nfc_adapter "Powered"),
          Event.remote (properties_get nfc_adapter "Polling"),
          Event.remote (start_poll_loop nfc_adapter)] ∨
      _setup_nfc_adapter remote history nfc_adapter =
        [Event.remote (properties_get nfc_adapter "Powered"),
          Event.remote (properties_get nfc_adapter "Polling"),
          Event.remote (properties_set_powered nfc_adapter),
          Event.remote (start_poll_loop nfc_adapter)]) ∧
    (Event.remote (properties_set_powered nfc_adapter) ∈
        _setup_nfc_adapter remote history nfc_adapter →
      remote history (properties_get nfc_adapter "Powered") =
        Reply.value (GVariant.boolean false)) ∧
    (Event.remote (start_poll_loop nfc_adapter) ∈
        _setup_nfc_adapter remote history nfc_adapter →
      remote (history ++ [Event.remote (properties_get nfc_adapter "Powered")])
        (properties_get nfc_adapter "Polling") = Reply.value (GVariant.boolean false)) ∧
    (∀ powered,
      remote history (properties_get nfc_adapter "Powered") =
        Reply.value (GVariant.boolean powered) →
      (∀ polling, remote (history ++ [Event.remote (properties_get nfc_adapter "Powered")])
        (properties_get nfc_adapter "Polling") ≠ Reply.value (GVariant.boolean polling)) →
      _setup_nfc_adapter remote history nfc_adapter =
        [Event.remote (properties_get nfc_adapter "Powered"),
          Event.remote (properties_get nfc_adapter "Polling")]) := by
  have hset_get : ∀ name, Event.remote (properties_set_powered nfc_adapter) ≠
      Event.remote (properties_get nfc_adapter name) := by
    intro name h
    simp [properties_set_powered, properties_get] at h
  have hpoll_get : ∀ name, Event.remote (start_poll_loop nfc_adapter) ≠
      Event.remote (properties_get nfc_adapter name) := by
    intro name h
    simp [start_poll_loop, properties_get] at h
  have hset_poll : Event.remote (properties_set_powered nfc_adapter) ≠
      Event.remote (start_poll_loop nfc_adapter) := by
    intro h
    simp [start_poll_loop, properties_set_powered] at h
  refine ⟨setup_forms remote history nfc_adapter, ?_, ?_,
    fun powered hpowered hpolling =>
      setup_polling_unread remote history nfc_adapter powered hpowered hpolling⟩
  · intro hmem
    by_cases h1 : ∀ b, remote history (properties_get nfc_adapter "Powered") ≠
        Reply.value (GVariant.boolean b)
    · rw [setup_powered_unread remote history nfc_adapter h1] at hmem
      simp [hset_get] at hmem
    · push_neg at h1
      obtain ⟨powered, hpowered⟩ := h1
      cases powered
      · exact hpowered
      · by_cases h2 : ∀ b,
            remote (history ++ [Event.remote (properties_get nfc_adapter "Powered")])
              (properties_get nfc_adapter "Polling") ≠ Reply.value (GVariant.boolean b)
        · rw [setup_polling_unread remote history nfc_adapter true hpowered h2] at hmem
          simp [hset_get] at hmem
        · push_neg at h2
          obtain ⟨polling, hpolling⟩ := h2
          rw [setup_powered_on remote history nfc_adapter polling hpowered hpolling] at hmem
          cases polling <;> simp [hset_get, hset_poll] at hmem
  · intro hmem
    by_cases h1 : ∀ b, remote history (properties_get nfc_adapter "Powered") ≠
        Reply.value (GVariant.boolean b)
    · rw [setup_powered_unread remote history nfc_adapter h1] at hmem
      simp [hpoll_get] at hmem
    · push_neg at h1
      obtain ⟨powered, hpowered⟩ := h1
      by_cases h2 : ∀ b,
          remote (history ++ [Event.remote (properties_get nfc_adapter "Powered")])
            (properties_get nfc_adapter "Polling") ≠ Reply.value (GVariant.boolean b)
      · rw [setup_polling_unread remote history nfc_adapter powered hpowered h2] at hmem
        simp [hpoll_get] at hmem
      · push_neg at h2
        obtain ⟨polling, hpolling⟩ := h2
        cases polling
        · exact hpolling
        · cases powered
          · cases hset : remote (history ++
                [Event.remote (properties_get nfc_adapter "Powered"),
                  Event.remote (properties_get nfc_adapter "Polling")])
                (properties_set_powered nfc_adapter) with
            | error e =>
              rw [setup_set_fails remote history nfc_adapter true e hpowered hpolling hset]
                at hmem
              simp [hpoll_get, hset_poll.symm] at hmem
            | null =>
              rw [setup_set_null remote history nfc_adapter true hpowered hpolling hset]
                at hmem
              simp [hpoll_get, hset_poll.symm] at hmem
            | value v =>
              rw [setup_set_done remote history nfc_adapter true v hpowered hpolling hset]
                at hmem
              simp [hpoll_get, hset_poll.symm] at hmem
          · rw [setup_powered_on remote history nfc_adapter true hpowered hpolling] at hmem
            simp [hpoll_get] at hmem

/-- Witness of C16 as amended: `Powered` reads FALSE and the read of `Polling`
fails. -/
theorem setup_order_witness :
    _setup_nfc_adapter polling_unreadable_remote [] nfc0_adapter =
      [Event.remote (properties_get nfc0_adapter "Powered"),
        Event.remote (properties_get nfc0_adapter "Polling")] :=
  (setup_order polling_unreadable_remote [] nfc0_adapter).2.2.2 false rfl
    (fun polling h => by cases polling <;> exact absurd h (by decide))

/-- Claim C17. In `_setup_nfc_adapter` a failure ends the call, the failed
request being the last one: when the read of `Powered` fails or yields no
boolean, nothing follows it; when the read of `Polling` fails or yields no
boolean, nothing follows it; when the power-on `Set` fails, it is made once and
no `StartPollLoop` follows; when `StartPollLoop` fails, it is made once and
nothing follows. -/
theorem setup_failure_ends_call (remote : Remote) (history : List Event)
    (nfc_adapter : GDBusProxy) :
    ((∀ b, remote history (properties_get nfc_adapter "Powered") ≠
        Reply.value (GVariant.boolean b)) →
      _setup_nfc_adapter remote history nfc_adapter =
        [Event.remote (properties_get nfc_adapter "Powered")]) ∧
    (∀ powered,
      remote history (properties_get nfc_adapter "Powered") =
        Reply.value (GVariant.boolean powered) →
      (∀ b, remote (history ++ [Event.remote (properties_get nfc_adapter "Powered")])
        (properties_get nfc_adapter "Polling") ≠ Reply.value (GVariant.boolean b)) →
      _setup_nfc_adapter remote history nfc_adapter =
        [Event.remote (properties_get nfc_adapter "Powered"),
          Event.remote (properties_get nfc_adapter "Polling")]) ∧
    (∀ polling e,
      remote history (properties_get nfc_adapter "Powered") =
        Reply.value (GVariant.boolean false) →
      remote (history ++ [Event.remote (properties_get nfc_adapter "Powered")])
        (properties_get nfc_adapter "Polling") = Reply.value (GVariant.boolean polling) →
      remote (history ++ [Event.remote (properties_get nfc_adapter "Powered"),
          Event.remote (properties_get nfc_adapter "Polling")])
        (properties_set_powered nfc_adapter) = Reply.error e →
      _setup_nfc_adapter remote history nfc_adapter =
        [Event.remote (properties_get nfc_adapter "Powered"),
          Event.remote (properties_get nfc_adapter "Polling"),
          Event.remote (properties_set_powered nfc_adapter)]) ∧
    (∀ e,
      remote history (properties_get nfc_adapter "Powered") =
        Reply.value (GVariant.boolean true) →
      remote (history ++ [Event.remote (properties_get nfc_adapter "Powered")])
        (properties_get nfc_adapter "Polling") = Reply.value (GVariant.boolean false) →
      remote (history ++ [Event.remote (properties_get nfc_adapter "Powered"),
          Event.remote (properties_get nfc_adapter "Polling")])
        (start_poll_loop nfc_adapter) = Reply.error e →
      _setup_nfc_adapter remote history nfc_adapter =
        [Event.remote (properties_get nfc_adapter "Powered"),
          Event.remote (properties_get nfc_adapter "Polling"),
          Event.remote (start_poll_loop nfc_adapter)]) ∧
    (∀ v e,
      remote history (properties_get nfc_adapter "Powered") =
        Reply.value (GVariant.boolean false) →
      remote (history ++ [Event.remote (properties_get nfc_adapter "Powered")])
        (properties_get nfc_adapter "Polling") = Reply.value (GVariant.boolean false) →
      remote (history ++ [Event.remote (properties_get nfc_adapter "Powered"),
          Event.remote (properties_get nfc_adapter "Polling")])
        (properties_set_powered nfc_adapter) = Reply.value v →
      remote (history ++ [Event.remote (properties_get nfc_adapter "Powered"),
          Event.remote (properties_get nfc_adapter "Polling"),
          Event.remote (properties_set_powered nfc_adapter)])
        (start_poll_loop nfc_adapter) = Reply.error e →
      _setup_nfc_adapter remote history nfc_adapter =
        [Event.remote (properties_get nfc_adapter "Powered"),
          Event.remote (properties_get nfc_adapter "Polling"),
          Event.remote (properties_set_powered nfc_adapter),
          Event.remote (start_poll_loop nfc_adapter)]) := by
  refine ⟨setup_powered_unread remote history nfc_adapter,
    fun powered h1 h2 => setup_polling_unread remote history nfc_adapter powered h1 h2,
    fun polling e h1 h2 h3 => setup_set_fails remote history nfc_adapter polling e h1 h2 h3,
    ?_, ?_⟩
  · intro e h1 h2 _
    rw [setup_powered_on remote history nfc_adapter false h1 h2]
    rfl
  · intro v e h1 h2 h3 _
    rw [setup_set_done remote history nfc_adapter false v h1 h2 h3]
    rfl

/-- Witness of C17: the adapter is off and refuses the power-on `Set`. -/
theorem setup_failure_ends_call_witness :
    _setup_nfc_adapter set_refused_remote [] nfc0_adapter =
      [Event.remote (properties_get nfc0_adapter "Powered"),
        Event.remote (properties_get nfc0_adapter "Polling"),
        Event.remote (properties_set_powered nfc0_adapter)] :=
  (setup_failure_ends_call set_refused_remote [] nfc0_adapter).2.2.1 false invalid_args_error
    rfl rfl rfl

/-- Claim C18. For every interface-removed notification for `org.neard.Tag`
whose cached `Adapter` property is absent or is not an object path,
`_on_interface_removed` emits `tag-lost` once, reads the property and returns:
no adapter proxy, no call of `_setup_nfc_adapter`, no request, no other
signal. -/
theorem tag_lost_without_adapter (remote : Remote) (history : List Event)
    (object_path : String) (proxy : GDBusProxy) (htag : proxy.interface_name = "org.neard.Tag")
    (hadapter : ∀ adapter_path, g_dbus_proxy_get_cached_property proxy "Adapter" ≠
      some (GVariant.object_path adapter_path)) :
    _on_interface_removed remote history object_path proxy =
      [Event.signal (Signal.tag_lost object_path), Event.cached_property "Adapter"] := by
  unfold _on_interface_removed
  rw [if_pos htag]
  cases hv : g_dbus_proxy_get_cached_property proxy "Adapter" with
  | none => rfl
  | some adapter_v =>
    cases adapter_v with
    | object_path adapter_path => exact absurd hv (hadapter adapter_path)
    | _ => rfl

/-- Witness of C18: a tag without cached properties. -/
theorem tag_lost_without_adapter_witness :
    _on_interface_removed idle_adapter_remote [] "/org/neard/nfc0/tag0" bare_tag =
      [Event.signal (Signal.tag_lost "/org/neard/nfc0/tag0"),
        Event.cached_property "Adapter"] :=
  tag_lost_without_adapter idle_adapter_remote [] "/org/neard/nfc0/tag0" bare_tag rfl
    (fun _ => by simp [g_dbus_proxy_get_cached_property, bare_tag])

/-- Claim C19. For every announced record whose `Type` is the string "MIME"
and whose `MIME` property is absent, is not a string, or is a string other than
"application/gtlm-nfc", `_on_interface_added` reads `Type` and `MIME`, emits
exactly one `no-record-found` and stops: no `record-found`, no read of
`Payload`, no request. -/
theorem record_mime_mismatch (remote : Remote) (history : List Event) (object_path : String)
    (proxy : GDBusProxy) (hrecord : proxy.interface_name = "org.neard.Record")
    (htype : g_dbus_proxy_get_cached_property proxy "Type" = some (GVariant.string "MIME"))
    (hmime : g_dbus_proxy_get_cached_property proxy "MIME" ≠
      some (GVariant.string "application/gtlm-nfc")) :
    _on_interface_added remote history object_path proxy =
      [Event.cached_property "Type", Event.cached_property "MIME",
        Event.signal Signal.no_record_found] := by
  rw [added_record remote history object_path proxy hrecord]
  unfold _on_interface_added_record
  rw [htype]
  simp only [g_variant_is_of_type_string, g_variant_get_string_value, g_strcmp0_ne]
  cases hm : g_dbus_proxy_get_cached_property proxy "MIME" with
  | none => simp
  | some mimetype_v =>
    rw [hm] at hmime
    cases mimetype_v with
    | string s =>
      have hs : s ≠ "application/gtlm-nfc" := fun e => hmime (by rw [e])
      simp [g_strcmp0_ne, g_variant_get_string_value, hs]
    | object_path p =>
      have hroot : "/" ≠ "application/gtlm-nfc" := by decide
      have hp : (if g_variant_is_object_path p = true then p else "/") ≠
          "application/gtlm-nfc" := by
        split
        · rename_i hvalid
          intro e
          rw [e] at hvalid
          revert hvalid
          decide
        · exact hroot
      simp [g_strcmp0_ne, g_variant_get_string_value, hp]
    | _ => simp [g_strcmp0_ne, g_variant_get_string_value]

/-- Witness of C19: a record of MIME type `text/plain`. -/
theorem record_mime_mismatch_witness :
    _on_interface_added (fun _ _ => Reply.value GVariant.other) []
        "/org/neard/nfc0/tag0/record0" plain_record =
      [Event.cached_property "Type", Event.cached_property "MIME",
        Event.signal Signal.no_record_found] :=
  record_mime_mismatch (fun _ _ => Reply.value GVariant.other) []
    "/org/neard/nfc0/tag0/record0" plain_record rfl (by decide) (by decide)

/-- Claim C20. For every `GetNDEF` call whose property map has no `Payload`
entry of byte-array type, `_handle_agent_method_call` emits exactly one
`no-record-found` and then returns the method reply, once; it emits no
`record-found`, which every call of the decoder does. A `GetNDEF` call without
any property map does the same. -/
theorem getndef_without_payload (parameters_dict : List (String × GVariant))
    (rest : List (List (String × GVariant)))
    (hpayload : ∀ bytes, parameters_dict.lookup "Payload" ≠ some (GVariant.bytestring bytes)) :
    _handle_agent_method_call "GetNDEF" (parameters_dict :: rest) =
        [Event.signal Signal.no_record_found, Event.return_value] ∧
      _handle_agent_method_call "GetNDEF" [] =
        [Event.signal Signal.no_record_found, Event.return_value] ∧
      ∀ data, _decode_username_password data ≠ [Event.signal Signal.no_record_found] := by
  refine ⟨?_, rfl, ?_⟩
  · have hlookup : g_variant_lookup_bytestring parameters_dict "Payload" = none := by
      unfold g_variant_lookup_bytestring
      cases h : parameters_dict.lookup "Payload" with
      | none => rfl
      | some v =>
        cases v with
        | bytestring bytes => exact absurd h (hpayload bytes)
        | _ => rfl
    unfold _handle_agent_method_call
    rw [if_neg (by simp)]
    simp only [List.head?_cons, hlookup]
  · intro data
    simp [_decode_username_password, g_variant_new_from_data]

/-- Witness of C20: a `GetNDEF` call that carries only the path of the record. -/
theorem getndef_without_payload_witness :
    _handle_agent_method_call "GetNDEF"
        [[("Record", GVariant.object_path "/org/neard/nfc0/tag0/record0")]] =
      [Event.signal Signal.no_record_found, Event.return_value] :=
  (getndef_without_payload [("Record", GVariant.object_path "/org/neard/nfc0/tag0/record0")] []
    (fun _ h => by
      rw [show List.lookup "Payload"
          [("Record", GVariant.object_path "/org/neard/nfc0/tag0/record0")] = none
        from by decide] at h
      cases h)).1

/-- Claim C21. For every pair of fields the output of
`_encode_username_password` is printable base64 text: every character is one of
A-Z, a-z, 0-9, `+`, `/` and `=`, the length is positive and a multiple of 4,
and no byte is NUL. So `g_variant_new_bytestring` wraps the whole text, followed
by its terminating NUL, and the agent's read of a `Payload` that holds this
byte string gives back the text, nothing lost and nothing cut. -/
theorem encode_printable_base64 (username password : Option (List Nat)) :
    (∀ c ∈ _encode_username_password username password,
      (65 ≤ c ∧ c ≤ 90) ∨ (97 ≤ c ∧ c ≤ 122) ∨ (48 ≤ c ∧ c ≤ 57) ∨ c = 43 ∨ c = 47 ∨
        c = 61) ∧
    0 < (_encode_username_password username password).length ∧
    (_encode_username_password username password).length % 4 = 0 ∧
    (∀ c ∈ _encode_username_password username password, c ≠ 0) ∧
    g_variant_new_bytestring (_encode_username_password username password) =
      GVariant.bytestring (_encode_username_password username password ++ [0]) ∧
    ∀ parameters_dict : List (String × GVariant),
      parameters_dict.lookup "Payload" =
        some (g_variant_new_bytestring (_encode_username_password username password)) →
      g_variant_lookup_bytestring parameters_dict "Payload" =
        some (_encode_username_password username password) := by
  refine ⟨encode_printable _, ?_, encode_length _, encode_ne_zero _,
    bytestring_encode username password, ?_⟩
  · unfold _encode_username_password g_variant_new_msms
    exact encode_pos _ (tuple_serialise_ne_nil _ _)
  · intro parameters_dict hpayload
    unfold g_variant_lookup_bytestring
    rw [hpayload]
    unfold g_variant_new_bytestring
    simp only
    rw [dup_new_bytestring (_encode_username_password username password)
      (encode_ne_zero _)]

end GtlmNfc
